import Mathlib

/-!
Client side of the language-server protocol layer (`client.go`, `context.go`).

A shallow embedding of the Go package `protocol`:

* `client.go`: the outbound adapters of `Client` and the inbound dispatcher `ClientHandler`;
* `context.go`: `WithLogger`, `LoggerFromContext`, `WithClient`.

Go code with effects is embedded in the monad `Eff`: a run yields the ordered list of effects
it performed on its collaborators (channel, capability implementation, logger) and either a
returned value or a runtime panic.  The collaborators are black boxes: what they answer is
given by the fields of `Conn`, `ClientInterface` and `Unmarshaler`, for which every theorem is
proved universally.  One answer of the decoder is fixed by the type of its target alone: it
rejects a `*interface{}` target, see `Unmarshaler.Interface`.
-/

namespace Protocol

/-! ## Declarations made outside the three source files -/

/-- Types and the one constant that `client.go` uses and that are declared in other files of
the package or in its dependencies.  They are parameters of the whole development. -/
structure Decls where
  /-- The constant `MethodCancelRequest`. -/
  MethodCancelRequest : String
  /-- Type `context.Context` as seen by `client.go`, which only passes it on. -/
  Ctx : Type
  /-- Type `jsonrpc2.ID`, the correlation identifier. -/
  ID : Type
  /-- Error values other than those built with `jsonrpc2.Errorf`. -/
  Err : Type
  /-- Go values of types not listed here, as held by an `interface{}`. -/
  Any : Type
  /-- Type `zap.Logger`. -/
  Logger : Type
  RegistrationParams : Type
  UnregistrationParams : Type
  PublishDiagnosticsParams : Type
  LogMessageParams : Type
  ShowMessageParams : Type
  ShowMessageRequestParams : Type
  MessageActionItem : Type
  /-- The zero value of `MessageActionItem`, what `new(MessageActionItem)` points to. -/
  zeroMessageActionItem : MessageActionItem
  ApplyWorkspaceEditParams : Type
  ConfigurationParams : Type
  WorkspaceFolder : Type

/-- Modelled from the spec: the declaration of `CancelParams` is not among the source files;
the spec calls it "a correlation-identifier-only payload", and the handler reads its field
`ID`. -/
structure CancelParams (ID : Type) where
  ID : ID

/-- Type `json.RawMessage`, a byte slice. -/
abbrev RawMessage := List UInt8

/-- Error codes of `jsonrpc2` that `client.go` names. -/
inductive Code where
  | CodeInvalidParams
  | CodeMethodNotFound
  deriving DecidableEq, Repr

/-- Values of the Go type `error`; `none : Option (GoError D)` is the nil error. -/
inductive GoError (D : Decls) where
  /-- The error `jsonrpc2.Errorf(code, format, args...)`. -/
  | Errorf (code : Code) (format : String) (args : List String)
  | other (e : D.Err)

/-- Values of the Go type `interface{}` that occur in `client.go`.  A pointer `*T` is an `Option T`
(`none` is the nil pointer); a slice `[]T` is an `Option (List T)` (`none` is the nil slice). -/
inductive Iface (D : Decls) where
  /-- The untyped `nil`. -/
  | nil
  | any (v : D.Any)
  /-- A `*interface{}`, pointing to the given interface value. -/
  | ptrIface (target : Iface D)
  | registrationParams (p : Option D.RegistrationParams)
  | unregistrationParams (p : Option D.UnregistrationParams)
  | publishDiagnosticsParams (p : Option D.PublishDiagnosticsParams)
  | logMessageParams (p : Option D.LogMessageParams)
  | showMessageParams (p : Option D.ShowMessageParams)
  | showMessageRequestParams (p : Option D.ShowMessageRequestParams)
  | applyWorkspaceEditParams (p : Option D.ApplyWorkspaceEditParams)
  | configurationParams (p : Option D.ConfigurationParams)
  | messageActionItem (p : Option D.MessageActionItem)
  | bool (b : Bool)
  | anySlice (s : Option (List D.Any))
  | workspaceFolders (s : Option (List D.WorkspaceFolder))

/-- Type `jsonrpc2.Request`, the inbound envelope: `Params` is a `*json.RawMessage` and `ID` a
`*ID`, nil for a notification. -/
structure Request (D : Decls) where
  Method : String
  Params : Option RawMessage
  ID : Option D.ID

/-- Method `(*jsonrpc2.Request).IsNotify`: the envelope carries no correlation identifier. -/
def Request.IsNotify {D : Decls} (r : Request D) : Bool :=
  r.ID.isNone

/-! ## Method identifiers (`client.go`, lines 30-41) -/

def MethodWindowShowMessage : String := "window/showMessage"
def MethodWindowShowMessageRequest : String := "window/showMessageRequest"
def MethodWindowLogMessage : String := "window/logMessage"
def MethodTelemetryEvent : String := "telemetry/event"
def MethodClientRegisterCapability : String := "client/registerCapability"
def MethodClientUnregisterCapability : String := "client/unregisterCapability"
def MethodTextDocumentPublishDiagnostics : String := "textDocument/publishDiagnostics"
def MethodWorkspaceApplyEdit : String := "workspace/applyEdit"
def MethodWorkspaceConfiguration : String := "workspace/configuration"
def MethodWorkspaceWorkspaceFolders : String := "workspace/workspaceFolders"

/-! ## Effects -/

/-- An invocation of a method of `ClientInterface`, with its arguments. -/
inductive ClientCall (D : Decls) where
  | Run (ctx : D.Ctx)
  | LogMessage (ctx : D.Ctx) (params : Option D.LogMessageParams)
  | PublishDiagnostics (ctx : D.Ctx) (params : Option D.PublishDiagnosticsParams)
  | ShowMessage (ctx : D.Ctx) (params : Option D.ShowMessageParams)
  | ShowMessageRequest (ctx : D.Ctx) (params : Option D.ShowMessageRequestParams)
  | Telemetry (ctx : D.Ctx) (params : Iface D)
  | RegisterCapability (ctx : D.Ctx) (params : Option D.RegistrationParams)
  | UnregisterCapability (ctx : D.Ctx) (params : Option D.UnregistrationParams)
  | WorkspaceApplyEdit (ctx : D.Ctx) (params : Option D.ApplyWorkspaceEditParams)
  | WorkspaceConfiguration (ctx : D.Ctx) (params : Option D.ConfigurationParams)
  | WorkspaceFolders (ctx : D.Ctx)

/-- One effect of the code of the package on a collaborator. -/
inductive Event (D : Decls) where
  /-- Channel primitive `conn.Run(ctx)`. -/
  | run (ctx : D.Ctx)
  /-- Channel primitive `conn.Notify(ctx, method, params)`. -/
  | notify (ctx : D.Ctx) (method : String) (params : Iface D)
  /-- Channel primitive `conn.Call(ctx, method, params, result)`. -/
  | call (ctx : D.Ctx) (method : String) (params : Iface D)
  /-- Channel primitive `conn.Reply(ctx, r, result, err)`. -/
  | reply (ctx : D.Ctx) (r : Request D) (result : Iface D) (err : Option (GoError D))
  /-- Channel primitive `conn.Cancel(id)`. -/
  | cancel (id : D.ID)
  /-- The helper `ReplyError(ctx, err, conn, r, logger)`, declared outside the source files:
  its invocation is an effect, its body is not part of this development. -/
  | replyError (ctx : D.Ctx) (err : GoError D) (r : Request D) (logger : D.Logger)
  /-- A method of the capability implementation is invoked. -/
  | capability (c : ClientCall D)
  /-- Log call `logger.Debug(msg, zap.String(key, val))`. -/
  | logDebug (logger : D.Logger) (msg key val : String)
  /-- Log call `logger.Error(msg, zap.Error(err))`. -/
  | logError (logger : D.Logger) (msg : String) (err : GoError D)

/-- Runtime panics of the Go code. -/
inductive Fault where
  /-- Dereference of a nil pointer. -/
  | nilDereference
  deriving DecidableEq, Repr

/-- A run of Go code: the effects performed, in order, and the value returned, or the panic
that ended the run. -/
structure Eff (ε : Type) (α : Type) where
  trace : List ε
  out : Except Fault α

/-- Sequencing: the effects of the first run, then, unless it panicked, those of the second. -/
def Eff.bind {ε α β : Type} (m : Eff ε α) (f : α → Eff ε β) : Eff ε β :=
  match m.out with
  | .error e => ⟨m.trace, .error e⟩
  | .ok a => ⟨m.trace ++ (f a).trace, (f a).out⟩

instance {ε : Type} : Monad (Eff ε) where
  pure a := ⟨[], .ok a⟩
  bind := Eff.bind

/-- Performs the effect `e` and returns `a`. -/
def Eff.emit {ε α : Type} (e : ε) (a : α) : Eff ε α :=
  ⟨[e], .ok a⟩

/-- The pointer dereference `*p`: panics on the nil pointer. -/
def deref {ε α : Type} (p : Option α) : Eff ε α :=
  match p with
  | some a => ⟨[], .ok a⟩
  | none => ⟨[], .error .nilDereference⟩

/-! ## Collaborators -/

/-- What a `conn.Call` did: the error it returned and what it wrote into the result slot
(`none`: nothing was written). -/
structure CallOutcome (D : Decls) (T : Type) where
  err : Option (GoError D)
  written : Option T

/-- The dynamic type of the `result` argument of `conn.Call`, a pointer to the slot that
receives the decoded reply: `*MessageActionItem`, `*bool`, `*[]interface{}` or
`*[]WorkspaceFolder`. -/
inductive SlotKind where
  | messageActionItem
  | bool
  | anySlice
  | workspaceFolders
  deriving DecidableEq, Repr

/-- The type of the content of a slot. -/
@[reducible] def SlotKind.type (D : Decls) : SlotKind → Type
  | .messageActionItem => D.MessageActionItem
  | .bool => Bool
  | .anySlice => Option (List D.Any)
  | .workspaceFolders => Option (List D.WorkspaceFolder)

/-- The channel `*jsonrpc2.Conn`, a black box: the fields give what each primitive returns. -/
structure Conn (D : Decls) where
  onRun : D.Ctx → Option (GoError D)
  onNotify : D.Ctx → String → Iface D → Option (GoError D)
  /-- The slot kind `k` is the type of the `result` argument. -/
  onCall : (k : SlotKind) → D.Ctx → String → Iface D → CallOutcome D (k.type D)
  onReply : D.Ctx → Request D → Iface D → Option (GoError D) → Option (GoError D)

namespace Conn
variable {D : Decls}

def Run (conn : Conn D) (ctx : D.Ctx) : Eff (Event D) (Option (GoError D)) :=
  Eff.emit (.run ctx) (conn.onRun ctx)

def Notify (conn : Conn D) (ctx : D.Ctx) (method : String) (params : Iface D) :
    Eff (Event D) (Option (GoError D)) :=
  Eff.emit (.notify ctx method params) (conn.onNotify ctx method params)

/-- Primitive `conn.Call(ctx, method, params, result)` with `result` a pointer of kind `k` to
a slot that holds `slot`: returns the error and the content of the slot after the call. -/
def Call (conn : Conn D) (k : SlotKind) (ctx : D.Ctx) (method : String) (params : Iface D)
    (slot : k.type D) : Eff (Event D) (Option (GoError D) × k.type D) :=
  Eff.emit (.call ctx method params)
    ((conn.onCall k ctx method params).err, ((conn.onCall k ctx method params).written).getD slot)

def Reply (conn : Conn D) (ctx : D.Ctx) (r : Request D) (result : Iface D)
    (err : Option (GoError D)) : Eff (Event D) (Option (GoError D)) :=
  Eff.emit (.reply ctx r result err) (conn.onReply ctx r result err)

def Cancel (_conn : Conn D) (id : D.ID) : Eff (Event D) Unit :=
  Eff.emit (.cancel id) ()

end Conn

/-- Helper `ReplyError`, declared outside the source files: invoking it is an effect. -/
def ReplyError {D : Decls} (ctx : D.Ctx) (err : GoError D) (_conn : Conn D) (r : Request D)
    (logger : D.Logger) : Eff (Event D) Unit :=
  Eff.emit (.replyError ctx err r logger) ()

/-- Logger method `logger.Debug(msg, zap.String(key, val))`. -/
def zapDebug {D : Decls} (logger : D.Logger) (msg key val : String) : Eff (Event D) Unit :=
  Eff.emit (.logDebug logger msg key val) ()

/-- Logger method `logger.Error(msg, zap.Error(err))`. -/
def zapError {D : Decls} (logger : D.Logger) (msg : String) (err : GoError D) :
    Eff (Event D) Unit :=
  Eff.emit (.logError logger msg err) ()

/-- The decoder `gojay.Unsafe.Unmarshal(data, &v)`.  It selects on the type of its target:
pointers to the basic types, and targets that implement `UnmarshalerJSONObject` or
`UnmarshalerJSONArray`; for any other target it returns `InvalidUnmarshalError` without
reading the payload.  For the parameter types of the package, declared outside the source
files, it is a black box, one field per type of `v`: the error, or the decoded value left in
`v`. -/
structure Unmarshaler (D : Decls) where
  /-- The error returned for a target whose type the decoder does not support. -/
  InvalidUnmarshalError : GoError D
  CancelParams : RawMessage → Except (GoError D) (CancelParams D.ID)
  RegistrationParams : RawMessage → Except (GoError D) D.RegistrationParams
  UnregistrationParams : RawMessage → Except (GoError D) D.UnregistrationParams
  PublishDiagnosticsParams : RawMessage → Except (GoError D) D.PublishDiagnosticsParams
  LogMessageParams : RawMessage → Except (GoError D) D.LogMessageParams
  ShowMessageParams : RawMessage → Except (GoError D) D.ShowMessageParams
  ShowMessageRequestParams : RawMessage → Except (GoError D) D.ShowMessageRequestParams
  ApplyWorkspaceEditParams : RawMessage → Except (GoError D) D.ApplyWorkspaceEditParams
  ConfigurationParams : RawMessage → Except (GoError D) D.ConfigurationParams

/-- The decoder on the target `&params` with `var params interface{}` (`client.go`, lines
185-186): a `*interface{}` is neither a pointer to a basic type nor an implementation of
`UnmarshalerJSONObject` or `UnmarshalerJSONArray`, so every payload is rejected with
`InvalidUnmarshalError`. -/
def Unmarshaler.Interface {D : Decls} (gojay : Unmarshaler D) (_data : RawMessage) :
    Except (GoError D) (Iface D) :=
  .error gojay.InvalidUnmarshalError

/-- An implementation of the interface `ClientInterface` (`client.go`, lines 16-28), a black
box: the fields give what each method returns. -/
structure ClientInterface (D : Decls) where
  onRun : D.Ctx → Option (GoError D)
  onLogMessage : D.Ctx → Option D.LogMessageParams → Option (GoError D)
  onPublishDiagnostics : D.Ctx → Option D.PublishDiagnosticsParams → Option (GoError D)
  onShowMessage : D.Ctx → Option D.ShowMessageParams → Option (GoError D)
  onShowMessageRequest : D.Ctx → Option D.ShowMessageRequestParams →
    Option D.MessageActionItem × Option (GoError D)
  onTelemetry : D.Ctx → Iface D → Option (GoError D)
  onRegisterCapability : D.Ctx → Option D.RegistrationParams → Option (GoError D)
  onUnregisterCapability : D.Ctx → Option D.UnregistrationParams → Option (GoError D)
  onWorkspaceApplyEdit : D.Ctx → Option D.ApplyWorkspaceEditParams → Bool × Option (GoError D)
  onWorkspaceConfiguration : D.Ctx → Option D.ConfigurationParams →
    Option (List D.Any) × Option (GoError D)
  onWorkspaceFolders : D.Ctx → Option (List D.WorkspaceFolder) × Option (GoError D)

namespace ClientInterface
variable {D : Decls}

def LogMessage (client : ClientInterface D) (ctx : D.Ctx) (params : Option D.LogMessageParams) :
    Eff (Event D) (Option (GoError D)) :=
  Eff.emit (.capability (.LogMessage ctx params)) (client.onLogMessage ctx params)

def PublishDiagnostics (client : ClientInterface D) (ctx : D.Ctx)
    (params : Option D.PublishDiagnosticsParams) : Eff (Event D) (Option (GoError D)) :=
  Eff.emit (.capability (.PublishDiagnostics ctx params)) (client.onPublishDiagnostics ctx params)

def ShowMessage (client : ClientInterface D) (ctx : D.Ctx) (params : Option D.ShowMessageParams) :
    Eff (Event D) (Option (GoError D)) :=
  Eff.emit (.capability (.ShowMessage ctx params)) (client.onShowMessage ctx params)

def ShowMessageRequest (client : ClientInterface D) (ctx : D.Ctx)
    (params : Option D.ShowMessageRequestParams) :
    Eff (Event D) (Option D.MessageActionItem × Option (GoError D)) :=
  Eff.emit (.capability (.ShowMessageRequest ctx params)) (client.onShowMessageRequest ctx params)

def Telemetry (client : ClientInterface D) (ctx : D.Ctx) (params : Iface D) :
    Eff (Event D) (Option (GoError D)) :=
  Eff.emit (.capability (.Telemetry ctx params)) (client.onTelemetry ctx params)

def RegisterCapability (client : ClientInterface D) (ctx : D.Ctx)
    (params : Option D.RegistrationParams) : Eff (Event D) (Option (GoError D)) :=
  Eff.emit (.capability (.RegisterCapability ctx params)) (client.onRegisterCapability ctx params)

def UnregisterCapability (client : ClientInterface D) (ctx : D.Ctx)
    (params : Option D.UnregistrationParams) : Eff (Event D) (Option (GoError D)) :=
  Eff.emit (.capability (.UnregisterCapability ctx params))
    (client.onUnregisterCapability ctx params)

def WorkspaceApplyEdit (client : ClientInterface D) (ctx : D.Ctx)
    (params : Option D.ApplyWorkspaceEditParams) : Eff (Event D) (Bool × Option (GoError D)) :=
  Eff.emit (.capability (.WorkspaceApplyEdit ctx params)) (client.onWorkspaceApplyEdit ctx params)

def WorkspaceConfiguration (client : ClientInterface D) (ctx : D.Ctx)
    (params : Option D.ConfigurationParams) :
    Eff (Event D) (Option (List D.Any) × Option (GoError D)) :=
  Eff.emit (.capability (.WorkspaceConfiguration ctx params))
    (client.onWorkspaceConfiguration ctx params)

def WorkspaceFolders (client : ClientInterface D) (ctx : D.Ctx) :
    Eff (Event D) (Option (List D.WorkspaceFolder) × Option (GoError D)) :=
  Eff.emit (.capability (.WorkspaceFolders ctx)) (client.onWorkspaceFolders ctx)

end ClientInterface

/-! ## The outbound adapters (`client.go`, lines 43-146) -/

/-- Type `Client`: the embedded channel and a logger. -/
structure Client (D : Decls) where
  Conn : Conn D
  logger : D.Logger

namespace Client
variable {D : Decls}

def Run (c : Client D) (ctx : D.Ctx) : Eff (Event D) (Option (GoError D)) := do
  let err ← c.Conn.Run ctx
  return err

def LogMessage (c : Client D) (ctx : D.Ctx) (params : Option D.LogMessageParams) :
    Eff (Event D) (Option (GoError D)) := do
  let err ← c.Conn.Notify ctx MethodWindowLogMessage (.logMessageParams params)
  return err

def PublishDiagnostics (c : Client D) (ctx : D.Ctx)
    (params : Option D.PublishDiagnosticsParams) : Eff (Event D) (Option (GoError D)) := do
  let err ← c.Conn.Notify ctx MethodTextDocumentPublishDiagnostics
    (.publishDiagnosticsParams params)
  return err

def ShowMessage (c : Client D) (ctx : D.Ctx) (params : Option D.ShowMessageParams) :
    Eff (Event D) (Option (GoError D)) := do
  let err ← c.Conn.Notify ctx MethodWindowShowMessage (.showMessageParams params)
  return err

def ShowMessageRequest (c : Client D) (ctx : D.Ctx)
    (params : Option D.ShowMessageRequestParams) :
    Eff (Event D) (Option D.MessageActionItem × Option (GoError D)) := do
  -- result = new(MessageActionItem): a non-nil pointer to a zero value
  let result := D.zeroMessageActionItem
  let (err, result) ← c.Conn.Call .messageActionItem ctx MethodWindowShowMessageRequest
    (.showMessageRequestParams params) result
  return (some result, err)

def Telemetry (c : Client D) (ctx : D.Ctx) (params : Iface D) :
    Eff (Event D) (Option (GoError D)) := do
  let err ← c.Conn.Notify ctx MethodTelemetryEvent params
  return err

def RegisterCapability (c : Client D) (ctx : D.Ctx) (params : Option D.RegistrationParams) :
    Eff (Event D) (Option (GoError D)) := do
  let err ← c.Conn.Notify ctx MethodClientRegisterCapability (.registrationParams params)
  return err

def UnregisterCapability (c : Client D) (ctx : D.Ctx) (params : Option D.UnregistrationParams) :
    Eff (Event D) (Option (GoError D)) := do
  let err ← c.Conn.Notify ctx MethodClientUnregisterCapability (.unregistrationParams params)
  return err

def WorkspaceApplyEdit (c : Client D) (ctx : D.Ctx)
    (params : Option D.ApplyWorkspaceEditParams) :
    Eff (Event D) (Bool × Option (GoError D)) := do
  -- the named result starts at its zero value, false
  let result := false
  let (err, result) ← c.Conn.Call .bool ctx MethodWorkspaceApplyEdit
    (.applyWorkspaceEditParams params) result
  return (result, err)

def WorkspaceConfiguration (c : Client D) (ctx : D.Ctx) (params : Option D.ConfigurationParams) :
    Eff (Event D) (Option (List D.Any) × Option (GoError D)) := do
  -- var result []interface{}: the nil slice
  let result : Option (List D.Any) := none
  let (err, result) ← c.Conn.Call .anySlice ctx MethodWorkspaceConfiguration
    (.configurationParams params) result
  return (result, err)

def WorkspaceFolders (c : Client D) (ctx : D.Ctx) :
    Eff (Event D) (Option (List D.WorkspaceFolder) × Option (GoError D)) := do
  -- the named result starts at its zero value, the nil slice
  let result : Option (List D.WorkspaceFolder) := none
  let (err, result) ← c.Conn.Call .workspaceFolders ctx MethodWorkspaceWorkspaceFolders .nil
    result
  return (result, err)

end Client

/-! ## The inbound dispatcher (`client.go`, lines 148-281) -/

/-- Function `ClientHandler(client, logger)` applied to `(ctx, conn, r)`; `gojay` stands for
the decoder `gojay.Unsafe`.  The `switch r.Method` tries its cases in the order of the
source. -/
def ClientHandler {D : Decls} (gojay : Unmarshaler D) (client : ClientInterface D)
    (logger : D.Logger) (ctx : D.Ctx) (conn : Conn D) (r : Request D) : Eff (Event D) Unit := do
  zapDebug logger "ClientHandler" "r.Method" r.Method
  if r.Method = D.MethodCancelRequest then
    let data ← deref r.Params
    match gojay.CancelParams data with
    | .error err =>
      ReplyError ctx err conn r logger
      return
    | .ok params =>
      conn.Cancel params.ID
  else if r.Method = MethodClientRegisterCapability then
    let data ← deref r.Params
    match gojay.RegistrationParams data with
    | .error err =>
      ReplyError ctx err conn r logger
      return
    | .ok params =>
      match ← client.RegisterCapability ctx (some params) with
      | some err => zapError logger MethodClientRegisterCapability err
      | none => pure ()
  else if r.Method = MethodClientUnregisterCapability then
    let data ← deref r.Params
    match gojay.UnregistrationParams data with
    | .error err =>
      ReplyError ctx err conn r logger
      return
    | .ok params =>
      match ← client.UnregisterCapability ctx (some params) with
      | some err => zapError logger MethodClientUnregisterCapability err
      | none => pure ()
  else if r.Method = MethodTelemetryEvent then
    let data ← deref r.Params
    match gojay.Interface data with
    | .error err =>
      ReplyError ctx err conn r logger
      return
    | .ok params =>
      match ← client.Telemetry ctx (.ptrIface params) with
      | some err => zapError logger MethodTelemetryEvent err
      | none => pure ()
  else if r.Method = MethodTextDocumentPublishDiagnostics then
    let data ← deref r.Params
    match gojay.PublishDiagnosticsParams data with
    | .error err =>
      ReplyError ctx err conn r logger
      return
    | .ok params =>
      match ← client.PublishDiagnostics ctx (some params) with
      | some err => zapError logger MethodTextDocumentPublishDiagnostics err
      | none => pure ()
  else if r.Method = MethodWindowLogMessage then
    let data ← deref r.Params
    match gojay.LogMessageParams data with
    | .error err =>
      ReplyError ctx err conn r logger
      return
    | .ok params =>
      match ← client.LogMessage ctx (some params) with
      | some err => zapError logger MethodWindowLogMessage err
      | none => pure ()
  else if r.Method = MethodWindowShowMessage then
    let data ← deref r.Params
    match gojay.ShowMessageParams data with
    | .error err =>
      ReplyError ctx err conn r logger
      return
    | .ok params =>
      match ← client.ShowMessage ctx (some params) with
      | some err => zapError logger MethodWindowShowMessage err
      | none => pure ()
  else if r.Method = MethodWindowShowMessageRequest then
    let data ← deref r.Params
    match gojay.ShowMessageRequestParams data with
    | .error err =>
      ReplyError ctx err conn r logger
      return
    | .ok params =>
      let (resp, err) ← client.ShowMessageRequest ctx (some params)
      match ← conn.Reply ctx r (.messageActionItem resp) err with
      | some err => zapError logger MethodWindowShowMessageRequest err
      | none => pure ()
  else if r.Method = MethodWorkspaceApplyEdit then
    let data ← deref r.Params
    match gojay.ApplyWorkspaceEditParams data with
    | .error err =>
      ReplyError ctx err conn r logger
      return
    | .ok params =>
      let (resp, err) ← client.WorkspaceApplyEdit ctx (some params)
      match ← conn.Reply ctx r (.bool resp) err with
      | some err => zapError logger MethodWorkspaceApplyEdit err
      | none => pure ()
  else if r.Method = MethodWorkspaceConfiguration then
    let data ← deref r.Params
    match gojay.ConfigurationParams data with
    | .error err =>
      ReplyError ctx err conn r logger
      return
    | .ok params =>
      let (resp, err) ← client.WorkspaceConfiguration ctx (some params)
      match ← conn.Reply ctx r (.anySlice resp) err with
      | some err => zapError logger MethodWorkspaceConfiguration err
      | none => pure ()
  else if r.Method = MethodWorkspaceWorkspaceFolders then
    if r.Params ≠ none then
      let _ ← conn.Reply ctx r .nil (some (.Errorf .CodeInvalidParams "Expected no params" []))
      return
    let (resp, err) ← client.WorkspaceFolders ctx
    match ← conn.Reply ctx r (.workspaceFolders resp) err with
    | some err => zapError logger MethodWorkspaceWorkspaceFolders err
    | none => pure ()
  else
    if r.IsNotify then
      let _ ← conn.Reply ctx r .nil
        (some (.Errorf .CodeMethodNotFound "method %q not found" [r.Method]))

/-! ## Context values (`context.go`) -/

/-- Values of `io.Writer`: `io.Discard`, which drops what is written to it, or another. -/
inductive Writer where
  | Discard
  | other (n : Nat)
  deriving DecidableEq, Repr

/-- Values of `slog.Handler`: `slog.NewTextHandler(w, opts)`, which writes every record to
`w`, or another; `opts` is a pointer. -/
inductive SlogHandler where
  | NewTextHandler (w : Writer) (opts : Option Nat)
  | other (n : Nat)
  deriving DecidableEq, Repr

/-- Type `slog.Logger`; `SlogLogger.New h` is what `slog.New(h)` points to.  A `*slog.Logger`
is an `Option SlogLogger`, `none` being the nil pointer. -/
inductive SlogLogger where
  | New (h : SlogHandler)
  deriving DecidableEq, Repr

/-- Keys of context values: the two key types of this package, which are not exported, and
the keys of other packages. -/
inductive CtxKey where
  | ctxLogger
  | ctxClient
  | foreign (n : Nat)
  deriving DecidableEq, Repr

/-- Values held by a context, with their dynamic type: a `*slog.Logger`, a `Client` (of type
`C`), or a value of another type. -/
inductive CtxVal (C : Type) where
  | slogLogger (p : Option SlogLogger)
  | client (c : C)
  | foreign (n : Nat)

/-- A non-nil `context.Context`, as far as its values go: the background context, or
`context.WithValue(parent, key, val)`. -/
inductive Context (C : Type) where
  | Background
  | WithValue (parent : Context C) (key : CtxKey) (val : CtxVal C)

/-- Method `ctx.Value(key)`: the value of the innermost layer with that key, `none` (the nil
interface) when there is none. -/
def Context.Value {C : Type} : Context C → CtxKey → Option (CtxVal C)
  | .Background, _ => none
  | .WithValue parent k v, key => if key = k then some v else parent.Value key

/-- Function `WithLogger` (`context.go`, lines 17-20). -/
def WithLogger {C : Type} (ctx : Context C) (logger : Option SlogLogger) : Context C :=
  .WithValue ctx .ctxLogger (.slogLogger logger)

/-- Function `LoggerFromContext` (`context.go`, lines 22-30): the type assertion
`ctx.Value(ctxLogger{}).(*slog.Logger)` succeeds exactly on a value of dynamic type
`*slog.Logger`. -/
def LoggerFromContext {C : Type} (ctx : Context C) : Option SlogLogger :=
  match ctx.Value .ctxLogger with
  | some (.slogLogger logger) => logger
  | _ => some (SlogLogger.New (SlogHandler.NewTextHandler Writer.Discard none))

/-- Function `WithClient` (`context.go`, lines 32-35). -/
def WithClient {C : Type} (ctx : Context C) (client : C) : Context C :=
  .WithValue ctx .ctxClient (.client client)

/-! ## Notions used to state the properties -/

/-- The ten method identifiers of the client. -/
def clientMethods : List String :=
  [MethodWindowShowMessage, MethodWindowShowMessageRequest, MethodWindowLogMessage,
    MethodTelemetryEvent, MethodClientRegisterCapability, MethodClientUnregisterCapability,
    MethodTextDocumentPublishDiagnostics, MethodWorkspaceApplyEdit,
    MethodWorkspaceConfiguration, MethodWorkspaceWorkspaceFolders]

/-- The nine client methods whose handler case decodes a parameter payload. -/
def methodsWithParams : List String :=
  [MethodClientRegisterCapability, MethodClientUnregisterCapability, MethodTelemetryEvent,
    MethodTextDocumentPublishDiagnostics, MethodWindowLogMessage, MethodWindowShowMessage,
    MethodWindowShowMessageRequest, MethodWorkspaceApplyEdit, MethodWorkspaceConfiguration]

/-- The effect is a reply issued by the handler itself, `conn.Reply`. -/
def Event.isReply {D : Decls} : Event D → Bool
  | .reply .. => true
  | _ => false

/-- The effect is an invocation of a capability method. -/
def Event.isCapability {D : Decls} : Event D → Bool
  | .capability _ => true
  | _ => false

/-- The effect is a `conn.Cancel`. -/
def Event.isCancel {D : Decls} : Event D → Bool
  | .cancel _ => true
  | _ => false

/-- The effect is an invocation of the helper `ReplyError`. -/
def Event.isReplyError {D : Decls} : Event D → Bool
  | .replyError .. => true
  | _ => false

/-- The effect goes to the channel: one of its primitives, or the helper `ReplyError`, which
is handed the channel. -/
def Event.onChannel {D : Decls} : Event D → Bool
  | .run _ => true
  | .notify .. => true
  | .call .. => true
  | .reply .. => true
  | .cancel _ => true
  | .replyError .. => true
  | _ => false

/-- The debug line that opens every run of the handler. -/
def debugLine {D : Decls} (logger : D.Logger) (r : Request D) : Event D :=
  .logDebug logger "ClientHandler" "r.Method" r.Method

/-- The log lines for an error that is only logged: one line for an error, none for nil. -/
def errorLog {D : Decls} (logger : D.Logger) (msg : String) (e : Option (GoError D)) :
    List (Event D) :=
  match e with
  | some err => [.logError logger msg err]
  | none => []

/-- The payload of `r` is present and fails to decode, with error `err`, to the parameter type
of the method of `r`, one of the nine client methods with parameters or the cancellation
identifier. -/
inductive DecodeFailure {D : Decls} (gojay : Unmarshaler D) (r : Request D) (err : GoError D) :
    Prop where
  | cancelRequest (data : RawMessage) (hm : r.Method = D.MethodCancelRequest)
      (hp : r.Params = some data) (hd : gojay.CancelParams data = .error err)
  | registerCapability (data : RawMessage) (hm : r.Method = MethodClientRegisterCapability)
      (hp : r.Params = some data) (hd : gojay.RegistrationParams data = .error err)
  | unregisterCapability (data : RawMessage) (hm : r.Method = MethodClientUnregisterCapability)
      (hp : r.Params = some data) (hd : gojay.UnregistrationParams data = .error err)
  | telemetryEvent (data : RawMessage) (hm : r.Method = MethodTelemetryEvent)
      (hp : r.Params = some data) (hd : gojay.Interface data = .error err)
  | publishDiagnostics (data : RawMessage)
      (hm : r.Method = MethodTextDocumentPublishDiagnostics)
      (hp : r.Params = some data) (hd : gojay.PublishDiagnosticsParams data = .error err)
  | logMessage (data : RawMessage) (hm : r.Method = MethodWindowLogMessage)
      (hp : r.Params = some data) (hd : gojay.LogMessageParams data = .error err)
  | showMessage (data : RawMessage) (hm : r.Method = MethodWindowShowMessage)
      (hp : r.Params = some data) (hd : gojay.ShowMessageParams data = .error err)
  | showMessageRequest (data : RawMessage) (hm : r.Method = MethodWindowShowMessageRequest)
      (hp : r.Params = some data) (hd : gojay.ShowMessageRequestParams data = .error err)
  | applyEdit (data : RawMessage) (hm : r.Method = MethodWorkspaceApplyEdit)
      (hp : r.Params = some data) (hd : gojay.ApplyWorkspaceEditParams data = .error err)
  | configuration (data : RawMessage) (hm : r.Method = MethodWorkspaceConfiguration)
      (hp : r.Params = some data) (hd : gojay.ConfigurationParams data = .error err)

/-- The envelope `r` is well-formed for one of the five notification methods other than
`telemetry/event`: its payload is present and decodes to `params`; `call` is the matching
capability invocation on `params` and `ret` the error that the implementation `client`
returns for it. -/
inductive WellFormedNotification {D : Decls} (gojay : Unmarshaler D) (client : ClientInterface D)
    (ctx : D.Ctx) (r : Request D) : ClientCall D → Option (GoError D) → Prop where
  | registerCapability (data : RawMessage) (params : D.RegistrationParams)
      (hm : r.Method = MethodClientRegisterCapability) (hp : r.Params = some data)
      (hd : gojay.RegistrationParams data = .ok params) :
      WellFormedNotification gojay client ctx r (.RegisterCapability ctx (some params))
        (client.onRegisterCapability ctx (some params))
  | unregisterCapability (data : RawMessage) (params : D.UnregistrationParams)
      (hm : r.Method = MethodClientUnregisterCapability) (hp : r.Params = some data)
      (hd : gojay.UnregistrationParams data = .ok params) :
      WellFormedNotification gojay client ctx r (.UnregisterCapability ctx (some params))
        (client.onUnregisterCapability ctx (some params))
  | publishDiagnostics (data : RawMessage) (params : D.PublishDiagnosticsParams)
      (hm : r.Method = MethodTextDocumentPublishDiagnostics) (hp : r.Params = some data)
      (hd : gojay.PublishDiagnosticsParams data = .ok params) :
      WellFormedNotification gojay client ctx r (.PublishDiagnostics ctx (some params))
        (client.onPublishDiagnostics ctx (some params))
  | logMessage (data : RawMessage) (params : D.LogMessageParams)
      (hm : r.Method = MethodWindowLogMessage) (hp : r.Params = some data)
      (hd : gojay.LogMessageParams data = .ok params) :
      WellFormedNotification gojay client ctx r (.LogMessage ctx (some params))
        (client.onLogMessage ctx (some params))
  | showMessage (data : RawMessage) (params : D.ShowMessageParams)
      (hm : r.Method = MethodWindowShowMessage) (hp : r.Params = some data)
      (hd : gojay.ShowMessageParams data = .ok params) :
      WellFormedNotification gojay client ctx r (.ShowMessage ctx (some params))
        (client.onShowMessage ctx (some params))

/-- The envelope `r` is well-formed for one of the four request methods: its payload is
present and decodes to `params` (for `workspace/workspaceFolders`: is absent); `call` is the
matching capability invocation, `result` and `err` are what the implementation `client`
returns for it. -/
inductive WellFormedRequest {D : Decls} (gojay : Unmarshaler D) (client : ClientInterface D)
    (ctx : D.Ctx) (r : Request D) : ClientCall D → Iface D → Option (GoError D) → Prop where
  | showMessageRequest (data : RawMessage) (params : D.ShowMessageRequestParams)
      (hm : r.Method = MethodWindowShowMessageRequest) (hp : r.Params = some data)
      (hd : gojay.ShowMessageRequestParams data = .ok params) :
      WellFormedRequest gojay client ctx r (.ShowMessageRequest ctx (some params))
        (.messageActionItem (client.onShowMessageRequest ctx (some params)).1)
        (client.onShowMessageRequest ctx (some params)).2
  | applyEdit (data : RawMessage) (params : D.ApplyWorkspaceEditParams)
      (hm : r.Method = MethodWorkspaceApplyEdit) (hp : r.Params = some data)
      (hd : gojay.ApplyWorkspaceEditParams data = .ok params) :
      WellFormedRequest gojay client ctx r (.WorkspaceApplyEdit ctx (some params))
        (.bool (client.onWorkspaceApplyEdit ctx (some params)).1)
        (client.onWorkspaceApplyEdit ctx (some params)).2
  | configuration (data : RawMessage) (params : D.ConfigurationParams)
      (hm : r.Method = MethodWorkspaceConfiguration) (hp : r.Params = some data)
      (hd : gojay.ConfigurationParams data = .ok params) :
      WellFormedRequest gojay client ctx r (.WorkspaceConfiguration ctx (some params))
        (.anySlice (client.onWorkspaceConfiguration ctx (some params)).1)
        (client.onWorkspaceConfiguration ctx (some params)).2
  | workspaceFolders (hm : r.Method = MethodWorkspaceWorkspaceFolders) (hp : r.Params = none) :
      WellFormedRequest gojay client ctx r (.WorkspaceFolders ctx)
        (.workspaceFolders (client.onWorkspaceFolders ctx).1) (client.onWorkspaceFolders ctx).2

/-- One step in the making of a context: `WithLogger`, `WithClient`, or a `context.WithValue`
under the key of another package. -/
inductive CtxStep (C : Type) where
  | withLogger (logger : Option SlogLogger)
  | withClient (client : C)
  | withForeign (key : Nat) (val : CtxVal C)

/-- The context after one more step. -/
def CtxStep.apply {C : Type} (ctx : Context C) : CtxStep C → Context C
  | .withLogger logger => WithLogger ctx logger
  | .withClient client => WithClient ctx client
  | .withForeign key val => .WithValue ctx (.foreign key) val

/-- The context made from the background context by the given steps, first step first. -/
def contextOf {C : Type} (steps : List (CtxStep C)) : Context C :=
  steps.foldl CtxStep.apply .Background

/-- The logger of a `WithLogger` step, `none` for another step. -/
def CtxStep.stored {C : Type} : CtxStep C → Option (Option SlogLogger)
  | .withLogger logger => some logger
  | _ => none

/-- The logger most recently stored by `WithLogger` among the steps, `none` when no step
stored one. -/
def lastStored {C : Type} (steps : List (CtxStep C)) : Option (Option SlogLogger) :=
  steps.reverse.findSome? CtxStep.stored

/-! ## A concrete instance, for evaluation -/

/-- An instance of the outside declarations: every type is `Nat`, the cancellation identifier
is the one of the protocol. -/
@[reducible] def D0 : Decls where
  MethodCancelRequest := "$/cancelRequest"
  Ctx := Nat
  ID := Nat
  Err := Nat
  Any := Nat
  Logger := Nat
  RegistrationParams := Nat
  UnregistrationParams := Nat
  PublishDiagnosticsParams := Nat
  LogMessageParams := Nat
  ShowMessageParams := Nat
  ShowMessageRequestParams := Nat
  MessageActionItem := Nat
  zeroMessageActionItem := 0
  ApplyWorkspaceEditParams := Nat
  ConfigurationParams := Nat
  WorkspaceFolder := Nat

/-- A decoder for `D0`: on the parameter types of the package the empty payload fails to
decode, with error 1, and any other payload decodes to its length; the error for an
unsupported target is error 2. -/
def gojay0 : Unmarshaler D0 where
  InvalidUnmarshalError := .other 2
  CancelParams d := if d = [] then .error (.other 1) else .ok ⟨d.length⟩
  RegistrationParams d := if d = [] then .error (.other 1) else .ok d.length
  UnregistrationParams d := if d = [] then .error (.other 1) else .ok d.length
  PublishDiagnosticsParams d := if d = [] then .error (.other 1) else .ok d.length
  LogMessageParams d := if d = [] then .error (.other 1) else .ok d.length
  ShowMessageParams d := if d = [] then .error (.other 1) else .ok d.length
  ShowMessageRequestParams d := if d = [] then .error (.other 1) else .ok d.length
  ApplyWorkspaceEditParams d := if d = [] then .error (.other 1) else .ok d.length
  ConfigurationParams d := if d = [] then .error (.other 1) else .ok d.length

/-- A capability implementation for `D0`: every method fails with error 7 when its context
is 0 and succeeds otherwise. -/
def client0 : ClientInterface D0 where
  onRun ctx := if ctx = 0 then some (.other 7) else none
  onLogMessage ctx _ := if ctx = 0 then some (.other 7) else none
  onPublishDiagnostics ctx _ := if ctx = 0 then some (.other 7) else none
  onShowMessage ctx _ := if ctx = 0 then some (.other 7) else none
  onShowMessageRequest ctx p := if ctx = 0 then (none, some (.other 7)) else (p, none)
  onTelemetry ctx _ := if ctx = 0 then some (.other 7) else none
  onRegisterCapability ctx _ := if ctx = 0 then some (.other 7) else none
  onUnregisterCapability ctx _ := if ctx = 0 then some (.other 7) else none
  onWorkspaceApplyEdit ctx _ := if ctx = 0 then (false, some (.other 7)) else (true, none)
  onWorkspaceConfiguration ctx _ :=
    if ctx = 0 then (none, some (.other 7)) else (some [1, 2], none)
  onWorkspaceFolders ctx := if ctx = 0 then (none, some (.other 7)) else (some [], none)

/-- A channel for `D0`: every primitive fails with error 9 when its context is 2 and succeeds
otherwise; a failing call writes nothing, a succeeding call for `window/showMessageRequest`
writes nothing either. -/
def conn0 : Conn D0 where
  onRun ctx := if ctx = 2 then some (.other 9) else none
  onNotify ctx _ _ := if ctx = 2 then some (.other 9) else none
  onCall _ ctx _ _ := ⟨if ctx = 2 then some (.other 9) else none, none⟩
  onReply ctx _ _ _ := if ctx = 2 then some (.other 9) else none

/-- A channel for `D0` whose every call fails with error 9 after it has written into the
result slot: the item 7, true, the slice `[7]`. -/
def conn1 : Conn D0 where
  onRun _ := none
  onNotify _ _ _ := none
  onCall k _ _ _ :=
    match k with
    | .messageActionItem => ⟨some (.other 9), some 7⟩
    | .bool => ⟨some (.other 9), some true⟩
    | .anySlice => ⟨some (.other 9), some (some [7])⟩
    | .workspaceFolders => ⟨some (.other 9), some (some [7])⟩
  onReply _ _ _ _ := none

/-- A client for `D0` over the channel `conn1`. -/
def c1 : Client D0 where
  Conn := conn1
  logger := (5 : Nat)

/-- A client for `D0` over the channel `conn0`. -/
def c0 : Client D0 where
  Conn := conn0
  logger := (5 : Nat)

/-- A request with an unknown method and correlation identifier 3. -/
def unknownRequest : Request D0 := ⟨"foo/bar", none, some (3 : Nat)⟩

/-- A notification with an unknown method. -/
def unknownNotification : Request D0 := ⟨"foo/bar", none, none⟩

/-- A `window/logMessage` notification without the `params` member. -/
def logMessageNoParams : Request D0 := ⟨"window/logMessage", none, none⟩

/-- A `window/logMessage` notification whose payload `gojay0` cannot decode. -/
def logMessageMalformed : Request D0 := ⟨"window/logMessage", some [], none⟩

/-- A `window/logMessage` notification with the payload `{}`. -/
def logMessageNotification : Request D0 := ⟨"window/logMessage", some [123, 125], none⟩

/-- A `workspace/applyEdit` request with the payload `{}` and correlation identifier 4. -/
def applyEditRequest : Request D0 := ⟨"workspace/applyEdit", some [123, 125], some (4 : Nat)⟩

/-- A `workspace/workspaceFolders` request with the payload `{}`. -/
def foldersRequestWithPayload : Request D0 :=
  ⟨"workspace/workspaceFolders", some [123, 125], some (6 : Nat)⟩

/-- A `telemetry/event` notification with the payload `{}`. -/
def telemetryNotification : Request D0 := ⟨"telemetry/event", some [123, 125], none⟩

/-- A cancellation of the request with correlation identifier 2, which is what `gojay0`
decodes the payload `{}` to. -/
def cancelNotification : Request D0 := ⟨"$/cancelRequest", some [123, 125], none⟩

/-! ## Reasoning about runs -/

theorem Eff.bind_eq {ε α β : Type} (m : Eff ε α) (f : α → Eff ε β) : (m >>= f) = Eff.bind m f :=
  rfl

theorem Eff.pure_eq {ε α : Type} (a : α) : (pure a : Eff ε α) = ⟨[], .ok a⟩ :=
  rfl

/-- The cancellation identifier, when it is none of the ten client method identifiers, differs
from each of them. -/
theorem cancel_distinct {D : Decls} (hc : D.MethodCancelRequest ∉ clientMethods) :
    ∀ m ∈ clientMethods, (m = D.MethodCancelRequest) = False := by
  intro m hm
  simp only [eq_iff_iff, iff_false]
  intro h
  exact hc (h ▸ hm)

/-- What the handler does on an envelope whose method is not a known one: the reply goes to
the notifications. -/
theorem ClientHandler_unknown {D : Decls} (gojay : Unmarshaler D) (client : ClientInterface D)
    (logger : D.Logger) (ctx : D.Ctx) (conn : Conn D) (r : Request D)
    (hu : r.Method ∉ clientMethods ++ [D.MethodCancelRequest]) :
    ClientHandler gojay client logger ctx conn r =
      ⟨debugLine logger r ::
        (if r.IsNotify then
          [.reply ctx r .nil (some (.Errorf .CodeMethodNotFound "method %q not found" [r.Method]))]
        else []), .ok ()⟩ := by
  simp only [clientMethods, List.mem_append, List.mem_cons, List.mem_singleton, not_or,
    List.not_mem_nil, not_false_eq_true, and_true] at hu
  obtain ⟨⟨h1, h2, h3, h4, h5, h6, h7, h8, h9, h10⟩, h0⟩ := hu
  cases hn : r.IsNotify <;>
  simp [ClientHandler, h0, h1, h2, h3, h4, h5, h6, h7, h8, h9, h10, hn, Eff.bind_eq, Eff.pure_eq,
    Eff.bind, Eff.emit, zapDebug, Conn.Reply, debugLine]

/-! ## The run of the handler, case by case -/

/-- The run of the handler on an envelope with the cancellation identifier. -/
theorem ClientHandler_run_cancelRequest {D : Decls} (gojay : Unmarshaler D)
    (client : ClientInterface D) (logger : D.Logger) (ctx : D.Ctx) (conn : Conn D)
    (r : Request D)
    (hm : r.Method = D.MethodCancelRequest) :
    ClientHandler gojay client logger ctx conn r =
      match r.Params with
      | none => ⟨[debugLine logger r], .error .nilDereference⟩
      | some data =>
        match gojay.CancelParams data with
        | .error err => ⟨[debugLine logger r, .replyError ctx err r logger], .ok ()⟩
        | .ok params => ⟨[debugLine logger r, .cancel params.ID], .ok ()⟩ := by
  cases hp : r.Params with
  | none => simp [ClientHandler, hm, hp, MethodWindowShowMessage, MethodWindowShowMessageRequest,
    MethodWindowLogMessage, MethodTelemetryEvent, MethodClientRegisterCapability,
    MethodClientUnregisterCapability, MethodTextDocumentPublishDiagnostics,
    MethodWorkspaceApplyEdit, MethodWorkspaceConfiguration, MethodWorkspaceWorkspaceFolders,
    Eff.bind_eq, Eff.pure_eq, Eff.bind, Eff.emit, deref, zapDebug, zapError, ReplyError,
    Conn.Reply, Conn.Cancel, debugLine, errorLog]
  | some data =>
    cases hd : gojay.CancelParams data <;>
    simp [ClientHandler, hm, hp, hd, MethodWindowShowMessage, MethodWindowShowMessageRequest,
    MethodWindowLogMessage, MethodTelemetryEvent, MethodClientRegisterCapability,
    MethodClientUnregisterCapability, MethodTextDocumentPublishDiagnostics,
    MethodWorkspaceApplyEdit, MethodWorkspaceConfiguration, MethodWorkspaceWorkspaceFolders,
    Eff.bind_eq, Eff.pure_eq, Eff.bind, Eff.emit, deref, zapDebug, zapError, ReplyError,
    Conn.Reply, Conn.Cancel, debugLine, errorLog]

/-- The run of the handler on an envelope of `client/registerCapability`. -/
theorem ClientHandler_run_registerCapability {D : Decls} (gojay : Unmarshaler D)
    (client : ClientInterface D) (logger : D.Logger) (ctx : D.Ctx) (conn : Conn D)
    (r : Request D)
    (hc : D.MethodCancelRequest ∉ clientMethods) (hm : r.Method = MethodClientRegisterCapability) :
    ClientHandler gojay client logger ctx conn r =
      match r.Params with
      | none => ⟨[debugLine logger r], .error .nilDereference⟩
      | some data =>
        match gojay.RegistrationParams data with
        | .error err => ⟨[debugLine logger r, .replyError ctx err r logger], .ok ()⟩
        | .ok params =>
          ⟨[debugLine logger r, .capability (.RegisterCapability ctx (some params))] ++
            errorLog logger r.Method (client.onRegisterCapability ctx (some params)), .ok ()⟩ := by
  have hk := cancel_distinct hc
  simp only [clientMethods, List.forall_mem_cons, List.not_mem_nil, false_implies,
    implies_true, and_true, MethodWindowShowMessage, MethodWindowShowMessageRequest,
    MethodWindowLogMessage, MethodTelemetryEvent, MethodClientRegisterCapability,
    MethodClientUnregisterCapability, MethodTextDocumentPublishDiagnostics,
    MethodWorkspaceApplyEdit, MethodWorkspaceConfiguration, MethodWorkspaceWorkspaceFolders] at hk
  obtain ⟨h1, h2, h3, h4, h5, h6, h7, h8, h9, h10⟩ := hk
  cases hp : r.Params with
  | none =>
    simp [ClientHandler, hm, hp, h1, h2, h3, h4, h5, h6, h7, h8, h9, h10, MethodWindowShowMessage, MethodWindowShowMessageRequest,
    MethodWindowLogMessage, MethodTelemetryEvent, MethodClientRegisterCapability,
    MethodClientUnregisterCapability, MethodTextDocumentPublishDiagnostics,
    MethodWorkspaceApplyEdit, MethodWorkspaceConfiguration, MethodWorkspaceWorkspaceFolders,
    Eff.bind_eq, Eff.pure_eq, Eff.bind, Eff.emit, deref, zapDebug, zapError, ReplyError,
    Conn.Reply, Conn.Cancel, debugLine, errorLog]
  | some data =>
    cases hd : gojay.RegistrationParams data with
    | error err =>
      simp [ClientHandler, hm, hp, hd, h1, h2, h3, h4, h5, h6, h7, h8, h9, h10, MethodWindowShowMessage, MethodWindowShowMessageRequest,
    MethodWindowLogMessage, MethodTelemetryEvent, MethodClientRegisterCapability,
    MethodClientUnregisterCapability, MethodTextDocumentPublishDiagnostics,
    MethodWorkspaceApplyEdit, MethodWorkspaceConfiguration, MethodWorkspaceWorkspaceFolders,
    Eff.bind_eq, Eff.pure_eq, Eff.bind, Eff.emit, deref, zapDebug, zapError, ReplyError,
    Conn.Reply, Conn.Cancel, debugLine, errorLog]
    | ok params =>
      cases hr : client.onRegisterCapability ctx (some params) <;>
      simp [ClientHandler, hm, hp, hd, hr, h1, h2, h3, h4, h5, h6, h7, h8, h9, h10,
        ClientInterface.RegisterCapability, MethodWindowShowMessage, MethodWindowShowMessageRequest,
    MethodWindowLogMessage, MethodTelemetryEvent, MethodClientRegisterCapability,
    MethodClientUnregisterCapability, MethodTextDocumentPublishDiagnostics,
    MethodWorkspaceApplyEdit, MethodWorkspaceConfiguration, MethodWorkspaceWorkspaceFolders,
    Eff.bind_eq, Eff.pure_eq, Eff.bind, Eff.emit, deref, zapDebug, zapError, ReplyError,
    Conn.Reply, Conn.Cancel, debugLine, errorLog]

/-- The run of the handler on an envelope of `client/unregisterCapability`. -/
theorem ClientHandler_run_unregisterCapability {D : Decls} (gojay : Unmarshaler D)
    (client : ClientInterface D) (logger : D.Logger) (ctx : D.Ctx) (conn : Conn D)
    (r : Request D)
    (hc : D.MethodCancelRequest ∉ clientMethods) (hm : r.Method = MethodClientUnregisterCapability) :
    ClientHandler gojay client logger ctx conn r =
      match r.Params with
      | none => ⟨[debugLine logger r], .error .nilDereference⟩
      | some data =>
        match gojay.UnregistrationParams data with
        | .error err => ⟨[debugLine logger r, .replyError ctx err r logger], .ok ()⟩
        | .ok params =>
          ⟨[debugLine logger r, .capability (.UnregisterCapability ctx (some params))] ++
            errorLog logger r.Method (client.onUnregisterCapability ctx (some params)), .ok ()⟩ := by
  have hk := cancel_distinct hc
  simp only [clientMethods, List.forall_mem_cons, List.not_mem_nil, false_implies,
    implies_true, and_true, MethodWindowShowMessage, MethodWindowShowMessageRequest,
    MethodWindowLogMessage, MethodTelemetryEvent, MethodClientRegisterCapability,
    MethodClientUnregisterCapability, MethodTextDocumentPublishDiagnostics,
    MethodWorkspaceApplyEdit, MethodWorkspaceConfiguration, MethodWorkspaceWorkspaceFolders] at hk
  obtain ⟨h1, h2, h3, h4, h5, h6, h7, h8, h9, h10⟩ := hk
  cases hp : r.Params with
  | none =>
    simp [ClientHandler, hm, hp, h1, h2, h3, h4, h5, h6, h7, h8, h9, h10, MethodWindowShowMessage, MethodWindowShowMessageRequest,
    MethodWindowLogMessage, MethodTelemetryEvent, MethodClientRegisterCapability,
    MethodClientUnregisterCapability, MethodTextDocumentPublishDiagnostics,
    MethodWorkspaceApplyEdit, MethodWorkspaceConfiguration, MethodWorkspaceWorkspaceFolders,
    Eff.bind_eq, Eff.pure_eq, Eff.bind, Eff.emit, deref, zapDebug, zapError, ReplyError,
    Conn.Reply, Conn.Cancel, debugLine, errorLog]
  | some data =>
    cases hd : gojay.UnregistrationParams data with
    | error err =>
      simp [ClientHandler, hm, hp, hd, h1, h2, h3, h4, h5, h6, h7, h8, h9, h10, MethodWindowShowMessage, MethodWindowShowMessageRequest,
    MethodWindowLogMessage, MethodTelemetryEvent, MethodClientRegisterCapability,
    MethodClientUnregisterCapability, MethodTextDocumentPublishDiagnostics,
    MethodWorkspaceApplyEdit, MethodWorkspaceConfiguration, MethodWorkspaceWorkspaceFolders,
    Eff.bind_eq, Eff.pure_eq, Eff.bind, Eff.emit, deref, zapDebug, zapError, ReplyError,
    Conn.Reply, Conn.Cancel, debugLine, errorLog]
    | ok params =>
      cases hr : client.onUnregisterCapability ctx (some params) <;>
      simp [ClientHandler, hm, hp, hd, hr, h1, h2, h3, h4, h5, h6, h7, h8, h9, h10,
        ClientInterface.UnregisterCapability, MethodWindowShowMessage, MethodWindowShowMessageRequest,
    MethodWindowLogMessage, MethodTelemetryEvent, MethodClientRegisterCapability,
    MethodClientUnregisterCapability, MethodTextDocumentPublishDiagnostics,
    MethodWorkspaceApplyEdit, MethodWorkspaceConfiguration, MethodWorkspaceWorkspaceFolders,
    Eff.bind_eq, Eff.pure_eq, Eff.bind, Eff.emit, deref, zapDebug, zapError, ReplyError,
    Conn.Reply, Conn.Cancel, debugLine, errorLog]

/-- The run of the handler on an envelope of `telemetry/event`: the decoder rejects the
target `&params`, so a present payload always ends in `ReplyError`. -/
theorem ClientHandler_run_telemetryEvent {D : Decls} (gojay : Unmarshaler D)
    (client : ClientInterface D) (logger : D.Logger) (ctx : D.Ctx) (conn : Conn D)
    (r : Request D)
    (hc : D.MethodCancelRequest ∉ clientMethods) (hm : r.Method = MethodTelemetryEvent) :
    ClientHandler gojay client logger ctx conn r =
      match r.Params with
      | none => ⟨[debugLine logger r], .error .nilDereference⟩
      | some _ =>
        ⟨[debugLine logger r, .replyError ctx gojay.InvalidUnmarshalError r logger],
          .ok ()⟩ := by
  have hk := cancel_distinct hc
  simp only [clientMethods, List.forall_mem_cons, List.not_mem_nil, false_implies,
    implies_true, and_true, MethodWindowShowMessage, MethodWindowShowMessageRequest,
    MethodWindowLogMessage, MethodTelemetryEvent, MethodClientRegisterCapability,
    MethodClientUnregisterCapability, MethodTextDocumentPublishDiagnostics,
    MethodWorkspaceApplyEdit, MethodWorkspaceConfiguration, MethodWorkspaceWorkspaceFolders] at hk
  obtain ⟨h1, h2, h3, h4, h5, h6, h7, h8, h9, h10⟩ := hk
  cases hp : r.Params with
  | none =>
    simp [ClientHandler, hm, hp, h1, h2, h3, h4, h5, h6, h7, h8, h9, h10,
      MethodWindowShowMessage, MethodWindowShowMessageRequest, MethodWindowLogMessage,
      MethodTelemetryEvent, MethodClientRegisterCapability, MethodClientUnregisterCapability,
      MethodTextDocumentPublishDiagnostics, MethodWorkspaceApplyEdit,
      MethodWorkspaceConfiguration, MethodWorkspaceWorkspaceFolders,
      Eff.bind_eq, Eff.pure_eq, Eff.bind, Eff.emit, deref, zapDebug, zapError, ReplyError,
      Conn.Reply, Conn.Cancel, debugLine, errorLog]
  | some data =>
    simp [ClientHandler, hm, hp, h1, h2, h3, h4, h5, h6, h7, h8, h9, h10,
      Unmarshaler.Interface,
      MethodWindowShowMessage, MethodWindowShowMessageRequest, MethodWindowLogMessage,
      MethodTelemetryEvent, MethodClientRegisterCapability, MethodClientUnregisterCapability,
      MethodTextDocumentPublishDiagnostics, MethodWorkspaceApplyEdit,
      MethodWorkspaceConfiguration, MethodWorkspaceWorkspaceFolders,
      Eff.bind_eq, Eff.pure_eq, Eff.bind, Eff.emit, deref, zapDebug, zapError, ReplyError,
      Conn.Reply, Conn.Cancel, debugLine, errorLog]

/-- The run of the handler on an envelope of `textDocument/publishDiagnostics`. -/
theorem ClientHandler_run_publishDiagnostics {D : Decls} (gojay : Unmarshaler D)
    (client : ClientInterface D) (logger : D.Logger) (ctx : D.Ctx) (conn : Conn D)
    (r : Request D)
    (hc : D.MethodCancelRequest ∉ clientMethods) (hm : r.Method = MethodTextDocumentPublishDiagnostics) :
    ClientHandler gojay client logger ctx conn r =
      match r.Params with
      | none => ⟨[debugLine logger r], .error .nilDereference⟩
      | some data =>
        match gojay.PublishDiagnosticsParams data with
        | .error err => ⟨[debugLine logger r, .replyError ctx err r logger], .ok ()⟩
        | .ok params =>
          ⟨[debugLine logger r, .capability (.PublishDiagnostics ctx (some params))] ++
            errorLog logger r.Method (client.onPublishDiagnostics ctx (some params)), .ok ()⟩ := by
  have hk := cancel_distinct hc
  simp only [clientMethods, List.forall_mem_cons, List.not_mem_nil, false_implies,
    implies_true, and_true, MethodWindowShowMessage, MethodWindowShowMessageRequest,
    MethodWindowLogMessage, MethodTelemetryEvent, MethodClientRegisterCapability,
    MethodClientUnregisterCapability, MethodTextDocumentPublishDiagnostics,
    MethodWorkspaceApplyEdit, MethodWorkspaceConfiguration, MethodWorkspaceWorkspaceFolders] at hk
  obtain ⟨h1, h2, h3, h4, h5, h6, h7, h8, h9, h10⟩ := hk
  cases hp : r.Params with
  | none =>
    simp [ClientHandler, hm, hp, h1, h2, h3, h4, h5, h6, h7, h8, h9, h10, MethodWindowShowMessage, MethodWindowShowMessageRequest,
    MethodWindowLogMessage, MethodTelemetryEvent, MethodClientRegisterCapability,
    MethodClientUnregisterCapability, MethodTextDocumentPublishDiagnostics,
    MethodWorkspaceApplyEdit, MethodWorkspaceConfiguration, MethodWorkspaceWorkspaceFolders,
    Eff.bind_eq, Eff.pure_eq, Eff.bind, Eff.emit, deref, zapDebug, zapError, ReplyError,
    Conn.Reply, Conn.Cancel, debugLine, errorLog]
  | some data =>
    cases hd : gojay.PublishDiagnosticsParams data with
    | error err =>
      simp [ClientHandler, hm, hp, hd, h1, h2, h3, h4, h5, h6, h7, h8, h9, h10, MethodWindowShowMessage, MethodWindowShowMessageRequest,
    MethodWindowLogMessage, MethodTelemetryEvent, MethodClientRegisterCapability,
    MethodClientUnregisterCapability, MethodTextDocumentPublishDiagnostics,
    MethodWorkspaceApplyEdit, MethodWorkspaceConfiguration, MethodWorkspaceWorkspaceFolders,
    Eff.bind_eq, Eff.pure_eq, Eff.bind, Eff.emit, deref, zapDebug, zapError, ReplyError,
    Conn.Reply, Conn.Cancel, debugLine, errorLog]
    | ok params =>
      cases hr : client.onPublishDiagnostics ctx (some params) <;>
      simp [ClientHandler, hm, hp, hd, hr, h1, h2, h3, h4, h5, h6, h7, h8, h9, h10,
        ClientInterface.PublishDiagnostics, MethodWindowShowMessage, MethodWindowShowMessageRequest,
    MethodWindowLogMessage, MethodTelemetryEvent, MethodClientRegisterCapability,
    MethodClientUnregisterCapability, MethodTextDocumentPublishDiagnostics,
    MethodWorkspaceApplyEdit, MethodWorkspaceConfiguration, MethodWorkspaceWorkspaceFolders,
    Eff.bind_eq, Eff.pure_eq, Eff.bind, Eff.emit, deref, zapDebug, zapError, ReplyError,
    Conn.Reply, Conn.Cancel, debugLine, errorLog]

/-- The run of the handler on an envelope of `window/logMessage`. -/
theorem ClientHandler_run_logMessage {D : Decls} (gojay : Unmarshaler D)
    (client : ClientInterface D) (logger : D.Logger) (ctx : D.Ctx) (conn : Conn D)
    (r : Request D)
    (hc : D.MethodCancelRequest ∉ clientMethods) (hm : r.Method = MethodWindowLogMessage) :
    ClientHandler gojay client logger ctx conn r =
      match r.Params with
      | none => ⟨[debugLine logger r], .error .nilDereference⟩
      | some data =>
        match gojay.LogMessageParams data with
        | .error err => ⟨[debugLine logger r, .replyError ctx err r logger], .ok ()⟩
        | .ok params =>
          ⟨[debugLine logger r, .capability (.LogMessage ctx (some params))] ++
            errorLog logger r.Method (client.onLogMessage ctx (some params)), .ok ()⟩ := by
  have hk := cancel_distinct hc
  simp only [clientMethods, List.forall_mem_cons, List.not_mem_nil, false_implies,
    implies_true, and_true, MethodWindowShowMessage, MethodWindowShowMessageRequest,
    MethodWindowLogMessage, MethodTelemetryEvent, MethodClientRegisterCapability,
    MethodClientUnregisterCapability, MethodTextDocumentPublishDiagnostics,
    MethodWorkspaceApplyEdit, MethodWorkspaceConfiguration, MethodWorkspaceWorkspaceFolders] at hk
  obtain ⟨h1, h2, h3, h4, h5, h6, h7, h8, h9, h10⟩ := hk
  cases hp : r.Params with
  | none =>
    simp [ClientHandler, hm, hp, h1, h2, h3, h4, h5, h6, h7, h8, h9, h10, MethodWindowShowMessage, MethodWindowShowMessageRequest,
    MethodWindowLogMessage, MethodTelemetryEvent, MethodClientRegisterCapability,
    MethodClientUnregisterCapability, MethodTextDocumentPublishDiagnostics,
    MethodWorkspaceApplyEdit, MethodWorkspaceConfiguration, MethodWorkspaceWorkspaceFolders,
    Eff.bind_eq, Eff.pure_eq, Eff.bind, Eff.emit, deref, zapDebug, zapError, ReplyError,
    Conn.Reply, Conn.Cancel, debugLine, errorLog]
  | some data =>
    cases hd : gojay.LogMessageParams data with
    | error err =>
      simp [ClientHandler, hm, hp, hd, h1, h2, h3, h4, h5, h6, h7, h8, h9, h10, MethodWindowShowMessage, MethodWindowShowMessageRequest,
    MethodWindowLogMessage, MethodTelemetryEvent, MethodClientRegisterCapability,
    MethodClientUnregisterCapability, MethodTextDocumentPublishDiagnostics,
    MethodWorkspaceApplyEdit, MethodWorkspaceConfiguration, MethodWorkspaceWorkspaceFolders,
    Eff.bind_eq, Eff.pure_eq, Eff.bind, Eff.emit, deref, zapDebug, zapError, ReplyError,
    Conn.Reply, Conn.Cancel, debugLine, errorLog]
    | ok params =>
      cases hr : client.onLogMessage ctx (some params) <;>
      simp [ClientHandler, hm, hp, hd, hr, h1, h2, h3, h4, h5, h6, h7, h8, h9, h10,
        ClientInterface.LogMessage, MethodWindowShowMessage, MethodWindowShowMessageRequest,
    MethodWindowLogMessage, MethodTelemetryEvent, MethodClientRegisterCapability,
    MethodClientUnregisterCapability, MethodTextDocumentPublishDiagnostics,
    MethodWorkspaceApplyEdit, MethodWorkspaceConfiguration, MethodWorkspaceWorkspaceFolders,
    Eff.bind_eq, Eff.pure_eq, Eff.bind, Eff.emit, deref, zapDebug, zapError, ReplyError,
    Conn.Reply, Conn.Cancel, debugLine, errorLog]

/-- The run of the handler on an envelope of `window/showMessage`. -/
theorem ClientHandler_run_showMessage {D : Decls} (gojay : Unmarshaler D)
    (client : ClientInterface D) (logger : D.Logger) (ctx : D.Ctx) (conn : Conn D)
    (r : Request D)
    (hc : D.MethodCancelRequest ∉ clientMethods) (hm : r.Method = MethodWindowShowMessage) :
    ClientHandler gojay client logger ctx conn r =
      match r.Params with
      | none => ⟨[debugLine logger r], .error .nilDereference⟩
      | some data =>
        match gojay.ShowMessageParams data with
        | .error err => ⟨[debugLine logger r, .replyError ctx err r logger], .ok ()⟩
        | .ok params =>
          ⟨[debugLine logger r, .capability (.ShowMessage ctx (some params))] ++
            errorLog logger r.Method (client.onShowMessage ctx (some params)), .ok ()⟩ := by
  have hk := cancel_distinct hc
  simp only [clientMethods, List.forall_mem_cons, List.not_mem_nil, false_implies,
    implies_true, and_true, MethodWindowShowMessage, MethodWindowShowMessageRequest,
    MethodWindowLogMessage, MethodTelemetryEvent, MethodClientRegisterCapability,
    MethodClientUnregisterCapability, MethodTextDocumentPublishDiagnostics,
    MethodWorkspaceApplyEdit, MethodWorkspaceConfiguration, MethodWorkspaceWorkspaceFolders] at hk
  obtain ⟨h1, h2, h3, h4, h5, h6, h7, h8, h9, h10⟩ := hk
  cases hp : r.Params with
  | none =>
    simp [ClientHandler, hm, hp, h1, h2, h3, h4, h5, h6, h7, h8, h9, h10, MethodWindowShowMessage, MethodWindowShowMessageRequest,
    MethodWindowLogMessage, MethodTelemetryEvent, MethodClientRegisterCapability,
    MethodClientUnregisterCapability, MethodTextDocumentPublishDiagnostics,
    MethodWorkspaceApplyEdit, MethodWorkspaceConfiguration, MethodWorkspaceWorkspaceFolders,
    Eff.bind_eq, Eff.pure_eq, Eff.bind, Eff.emit, deref, zapDebug, zapError, ReplyError,
    Conn.Reply, Conn.Cancel, debugLine, errorLog]
  | some data =>
    cases hd : gojay.ShowMessageParams data with
    | error err =>
      simp [ClientHandler, hm, hp, hd, h1, h2, h3, h4, h5, h6, h7, h8, h9, h10, MethodWindowShowMessage, MethodWindowShowMessageRequest,
    MethodWindowLogMessage, MethodTelemetryEvent, MethodClientRegisterCapability,
    MethodClientUnregisterCapability, MethodTextDocumentPublishDiagnostics,
    MethodWorkspaceApplyEdit, MethodWorkspaceConfiguration, MethodWorkspaceWorkspaceFolders,
    Eff.bind_eq, Eff.pure_eq, Eff.bind, Eff.emit, deref, zapDebug, zapError, ReplyError,
    Conn.Reply, Conn.Cancel, debugLine, errorLog]
    | ok params =>
      cases hr : client.onShowMessage ctx (some params) <;>
      simp [ClientHandler, hm, hp, hd, hr, h1, h2, h3, h4, h5, h6, h7, h8, h9, h10,
        ClientInterface.ShowMessage, MethodWindowShowMessage, MethodWindowShowMessageRequest,
    MethodWindowLogMessage, MethodTelemetryEvent, MethodClientRegisterCapability,
    MethodClientUnregisterCapability, MethodTextDocumentPublishDiagnostics,
    MethodWorkspaceApplyEdit, MethodWorkspaceConfiguration, MethodWorkspaceWorkspaceFolders,
    Eff.bind_eq, Eff.pure_eq, Eff.bind, Eff.emit, deref, zapDebug, zapError, ReplyError,
    Conn.Reply, Conn.Cancel, debugLine, errorLog]

/-- The run of the handler on an envelope of `window/showMessageRequest`. -/
theorem ClientHandler_run_showMessageRequest {D : Decls} (gojay : Unmarshaler D)
    (client : ClientInterface D) (logger : D.Logger) (ctx : D.Ctx) (conn : Conn D)
    (r : Request D)
    (hc : D.MethodCancelRequest ∉ clientMethods) (hm : r.Method = MethodWindowShowMessageRequest) :
    ClientHandler gojay client logger ctx conn r =
      match r.Params with
      | none => ⟨[debugLine logger r], .error .nilDereference⟩
      | some data =>
        match gojay.ShowMessageRequestParams data with
        | .error err => ⟨[debugLine logger r, .replyError ctx err r logger], .ok ()⟩
        | .ok params =>
          ⟨[debugLine logger r, .capability (.ShowMessageRequest ctx (some params)),
            .reply ctx r (.messageActionItem (client.onShowMessageRequest ctx (some params)).1)
              (client.onShowMessageRequest ctx (some params)).2] ++
            errorLog logger r.Method (conn.onReply ctx r
              (.messageActionItem (client.onShowMessageRequest ctx (some params)).1)
              (client.onShowMessageRequest ctx (some params)).2), .ok ()⟩ := by
  have hk := cancel_distinct hc
  simp only [clientMethods, List.forall_mem_cons, List.not_mem_nil, false_implies,
    implies_true, and_true, MethodWindowShowMessage, MethodWindowShowMessageRequest,
    MethodWindowLogMessage, MethodTelemetryEvent, MethodClientRegisterCapability,
    MethodClientUnregisterCapability, MethodTextDocumentPublishDiagnostics,
    MethodWorkspaceApplyEdit, MethodWorkspaceConfiguration, MethodWorkspaceWorkspaceFolders] at hk
  obtain ⟨h1, h2, h3, h4, h5, h6, h7, h8, h9, h10⟩ := hk
  cases hp : r.Params with
  | none =>
    simp [ClientHandler, hm, hp, h1, h2, h3, h4, h5, h6, h7, h8, h9, h10, MethodWindowShowMessage, MethodWindowShowMessageRequest,
    MethodWindowLogMessage, MethodTelemetryEvent, MethodClientRegisterCapability,
    MethodClientUnregisterCapability, MethodTextDocumentPublishDiagnostics,
    MethodWorkspaceApplyEdit, MethodWorkspaceConfiguration, MethodWorkspaceWorkspaceFolders,
    Eff.bind_eq, Eff.pure_eq, Eff.bind, Eff.emit, deref, zapDebug, zapError, ReplyError,
    Conn.Reply, Conn.Cancel, debugLine, errorLog]
  | some data =>
    cases hd : gojay.ShowMessageRequestParams data with
    | error err =>
      simp [ClientHandler, hm, hp, hd, h1, h2, h3, h4, h5, h6, h7, h8, h9, h10, MethodWindowShowMessage, MethodWindowShowMessageRequest,
    MethodWindowLogMessage, MethodTelemetryEvent, MethodClientRegisterCapability,
    MethodClientUnregisterCapability, MethodTextDocumentPublishDiagnostics,
    MethodWorkspaceApplyEdit, MethodWorkspaceConfiguration, MethodWorkspaceWorkspaceFolders,
    Eff.bind_eq, Eff.pure_eq, Eff.bind, Eff.emit, deref, zapDebug, zapError, ReplyError,
    Conn.Reply, Conn.Cancel, debugLine, errorLog]
    | ok params =>
      cases hr : conn.onReply ctx r (.messageActionItem (client.onShowMessageRequest ctx (some params)).1)
        (client.onShowMessageRequest ctx (some params)).2 <;>
      simp [ClientHandler, hm, hp, hd, hr, h1, h2, h3, h4, h5, h6, h7, h8, h9, h10,
        ClientInterface.ShowMessageRequest, MethodWindowShowMessage, MethodWindowShowMessageRequest,
    MethodWindowLogMessage, MethodTelemetryEvent, MethodClientRegisterCapability,
    MethodClientUnregisterCapability, MethodTextDocumentPublishDiagnostics,
    MethodWorkspaceApplyEdit, MethodWorkspaceConfiguration, MethodWorkspaceWorkspaceFolders,
    Eff.bind_eq, Eff.pure_eq, Eff.bind, Eff.emit, deref, zapDebug, zapError, ReplyError,
    Conn.Reply, Conn.Cancel, debugLine, errorLog]

/-- The run of the handler on an envelope of `workspace/applyEdit`. -/
theorem ClientHandler_run_applyEdit {D : Decls} (gojay : Unmarshaler D)
    (client : ClientInterface D) (logger : D.Logger) (ctx : D.Ctx) (conn : Conn D)
    (r : Request D)
    (hc : D.MethodCancelRequest ∉ clientMethods) (hm : r.Method = MethodWorkspaceApplyEdit) :
    ClientHandler gojay client logger ctx conn r =
      match r.Params with
      | none => ⟨[debugLine logger r], .error .nilDereference⟩
      | some data =>
        match gojay.ApplyWorkspaceEditParams data with
        | .error err => ⟨[debugLine logger r, .replyError ctx err r logger], .ok ()⟩
        | .ok params =>
          ⟨[debugLine logger r, .capability (.WorkspaceApplyEdit ctx (some params)),
            .reply ctx r (.bool (client.onWorkspaceApplyEdit ctx (some params)).1)
              (client.onWorkspaceApplyEdit ctx (some params)).2] ++
            errorLog logger r.Method (conn.onReply ctx r
              (.bool (client.onWorkspaceApplyEdit ctx (some params)).1)
              (client.onWorkspaceApplyEdit ctx (some params)).2), .ok ()⟩ := by
  have hk := cancel_distinct hc
  simp only [clientMethods, List.forall_mem_cons, List.not_mem_nil, false_implies,
    implies_true, and_true, MethodWindowShowMessage, MethodWindowShowMessageRequest,
    MethodWindowLogMessage, MethodTelemetryEvent, MethodClientRegisterCapability,
    MethodClientUnregisterCapability, MethodTextDocumentPublishDiagnostics,
    MethodWorkspaceApplyEdit, MethodWorkspaceConfiguration, MethodWorkspaceWorkspaceFolders] at hk
  obtain ⟨h1, h2, h3, h4, h5, h6, h7, h8, h9, h10⟩ := hk
  cases hp : r.Params with
  | none =>
    simp [ClientHandler, hm, hp, h1, h2, h3, h4, h5, h6, h7, h8, h9, h10, MethodWindowShowMessage, MethodWindowShowMessageRequest,
    MethodWindowLogMessage, MethodTelemetryEvent, MethodClientRegisterCapability,
    MethodClientUnregisterCapability, MethodTextDocumentPublishDiagnostics,
    MethodWorkspaceApplyEdit, MethodWorkspaceConfiguration, MethodWorkspaceWorkspaceFolders,
    Eff.bind_eq, Eff.pure_eq, Eff.bind, Eff.emit, deref, zapDebug, zapError, ReplyError,
    Conn.Reply, Conn.Cancel, debugLine, errorLog]
  | some data =>
    cases hd : gojay.ApplyWorkspaceEditParams data with
    | error err =>
      simp [ClientHandler, hm, hp, hd, h1, h2, h3, h4, h5, h6, h7, h8, h9, h10, MethodWindowShowMessage, MethodWindowShowMessageRequest,
    MethodWindowLogMessage, MethodTelemetryEvent, MethodClientRegisterCapability,
    MethodClientUnregisterCapability, MethodTextDocumentPublishDiagnostics,
    MethodWorkspaceApplyEdit, MethodWorkspaceConfiguration, MethodWorkspaceWorkspaceFolders,
    Eff.bind_eq, Eff.pure_eq, Eff.bind, Eff.emit, deref, zapDebug, zapError, ReplyError,
    Conn.Reply, Conn.Cancel, debugLine, errorLog]
    | ok params =>
      cases hr : conn.onReply ctx r (.bool (client.onWorkspaceApplyEdit ctx (some params)).1)
        (client.onWorkspaceApplyEdit ctx (some params)).2 <;>
      simp [ClientHandler, hm, hp, hd, hr, h1, h2, h3, h4, h5, h6, h7, h8, h9, h10,
        ClientInterface.WorkspaceApplyEdit, MethodWindowShowMessage, MethodWindowShowMessageRequest,
    MethodWindowLogMessage, MethodTelemetryEvent, MethodClientRegisterCapability,
    MethodClientUnregisterCapability, MethodTextDocumentPublishDiagnostics,
    MethodWorkspaceApplyEdit, MethodWorkspaceConfiguration, MethodWorkspaceWorkspaceFolders,
    Eff.bind_eq, Eff.pure_eq, Eff.bind, Eff.emit, deref, zapDebug, zapError, ReplyError,
    Conn.Reply, Conn.Cancel, debugLine, errorLog]

/-- The run of the handler on an envelope of `workspace/configuration`. -/
theorem ClientHandler_run_configuration {D : Decls} (gojay : Unmarshaler D)
    (client : ClientInterface D) (logger : D.Logger) (ctx : D.Ctx) (conn : Conn D)
    (r : Request D)
    (hc : D.MethodCancelRequest ∉ clientMethods) (hm : r.Method = MethodWorkspaceConfiguration) :
    ClientHandler gojay client logger ctx conn r =
      match r.Params with
      | none => ⟨[debugLine logger r], .error .nilDereference⟩
      | some data =>
        match gojay.ConfigurationParams data with
        | .error err => ⟨[debugLine logger r, .replyError ctx err r logger], .ok ()⟩
        | .ok params =>
          ⟨[debugLine logger r, .capability (.WorkspaceConfiguration ctx (some params)),
            .reply ctx r (.anySlice (client.onWorkspaceConfiguration ctx (some params)).1)
              (client.onWorkspaceConfiguration ctx (some params)).2] ++
            errorLog logger r.Method (conn.onReply ctx r
              (.anySlice (client.onWorkspaceConfiguration ctx (some params)).1)
              (client.onWorkspaceConfiguration ctx (some params)).2), .ok ()⟩ := by
  have hk := cancel_distinct hc
  simp only [clientMethods, List.forall_mem_cons, List.not_mem_nil, false_implies,
    implies_true, and_true, MethodWindowShowMessage, MethodWindowShowMessageRequest,
    MethodWindowLogMessage, MethodTelemetryEvent, MethodClientRegisterCapability,
    MethodClientUnregisterCapability, MethodTextDocumentPublishDiagnostics,
    MethodWorkspaceApplyEdit, MethodWorkspaceConfiguration, MethodWorkspaceWorkspaceFolders] at hk
  obtain ⟨h1, h2, h3, h4, h5, h6, h7, h8, h9, h10⟩ := hk
  cases hp : r.Params with
  | none =>
    simp [ClientHandler, hm, hp, h1, h2, h3, h4, h5, h6, h7, h8, h9, h10, MethodWindowShowMessage, MethodWindowShowMessageRequest,
    MethodWindowLogMessage, MethodTelemetryEvent, MethodClientRegisterCapability,
    MethodClientUnregisterCapability, MethodTextDocumentPublishDiagnostics,
    MethodWorkspaceApplyEdit, MethodWorkspaceConfiguration, MethodWorkspaceWorkspaceFolders,
    Eff.bind_eq, Eff.pure_eq, Eff.bind, Eff.emit, deref, zapDebug, zapError, ReplyError,
    Conn.Reply, Conn.Cancel, debugLine, errorLog]
  | some data =>
    cases hd : gojay.ConfigurationParams data with
    | error err =>
      simp [ClientHandler, hm, hp, hd, h1, h2, h3, h4, h5, h6, h7, h8, h9, h10, MethodWindowShowMessage, MethodWindowShowMessageRequest,
    MethodWindowLogMessage, MethodTelemetryEvent, MethodClientRegisterCapability,
    MethodClientUnregisterCapability, MethodTextDocumentPublishDiagnostics,
    MethodWorkspaceApplyEdit, MethodWorkspaceConfiguration, MethodWorkspaceWorkspaceFolders,
    Eff.bind_eq, Eff.pure_eq, Eff.bind, Eff.emit, deref, zapDebug, zapError, ReplyError,
    Conn.Reply, Conn.Cancel, debugLine, errorLog]
    | ok params =>
      cases hr : conn.onReply ctx r (.anySlice (client.onWorkspaceConfiguration ctx (some params)).1)
        (client.onWorkspaceConfiguration ctx (some params)).2 <;>
      simp [ClientHandler, hm, hp, hd, hr, h1, h2, h3, h4, h5, h6, h7, h8, h9, h10,
        ClientInterface.WorkspaceConfiguration, MethodWindowShowMessage, MethodWindowShowMessageRequest,
    MethodWindowLogMessage, MethodTelemetryEvent, MethodClientRegisterCapability,
    MethodClientUnregisterCapability, MethodTextDocumentPublishDiagnostics,
    MethodWorkspaceApplyEdit, MethodWorkspaceConfiguration, MethodWorkspaceWorkspaceFolders,
    Eff.bind_eq, Eff.pure_eq, Eff.bind, Eff.emit, deref, zapDebug, zapError, ReplyError,
    Conn.Reply, Conn.Cancel, debugLine, errorLog]

/-- The run of the handler on an envelope of `workspace/workspaceFolders`. -/
theorem ClientHandler_run_workspaceFolders {D : Decls} (gojay : Unmarshaler D)
    (client : ClientInterface D) (logger : D.Logger) (ctx : D.Ctx) (conn : Conn D)
    (r : Request D)
    (hc : D.MethodCancelRequest ∉ clientMethods)
    (hm : r.Method = MethodWorkspaceWorkspaceFolders) :
    ClientHandler gojay client logger ctx conn r =
      match r.Params with
      | some _ =>
        ⟨[debugLine logger r,
          .reply ctx r .nil (some (.Errorf .CodeInvalidParams "Expected no params" []))],
          .ok ()⟩
      | none =>
        ⟨[debugLine logger r, .capability (.WorkspaceFolders ctx),
          .reply ctx r (.workspaceFolders (client.onWorkspaceFolders ctx).1)
            (client.onWorkspaceFolders ctx).2] ++
          errorLog logger r.Method (conn.onReply ctx r
            (.workspaceFolders (client.onWorkspaceFolders ctx).1)
            (client.onWorkspaceFolders ctx).2), .ok ()⟩ := by
  have hk := cancel_distinct hc
  simp only [clientMethods, List.forall_mem_cons, List.not_mem_nil, false_implies,
    implies_true, and_true, MethodWindowShowMessage, MethodWindowShowMessageRequest,
    MethodWindowLogMessage, MethodTelemetryEvent, MethodClientRegisterCapability,
    MethodClientUnregisterCapability, MethodTextDocumentPublishDiagnostics,
    MethodWorkspaceApplyEdit, MethodWorkspaceConfiguration, MethodWorkspaceWorkspaceFolders] at hk
  obtain ⟨h1, h2, h3, h4, h5, h6, h7, h8, h9, h10⟩ := hk
  cases hp : r.Params with
  | some data =>
    simp [ClientHandler, hm, hp, h1, h2, h3, h4, h5, h6, h7, h8, h9, h10, MethodWindowShowMessage, MethodWindowShowMessageRequest,
    MethodWindowLogMessage, MethodTelemetryEvent, MethodClientRegisterCapability,
    MethodClientUnregisterCapability, MethodTextDocumentPublishDiagnostics,
    MethodWorkspaceApplyEdit, MethodWorkspaceConfiguration, MethodWorkspaceWorkspaceFolders,
    Eff.bind_eq, Eff.pure_eq, Eff.bind, Eff.emit, deref, zapDebug, zapError, ReplyError,
    Conn.Reply, Conn.Cancel, debugLine, errorLog]
  | none =>
    cases hr : conn.onReply ctx r (.workspaceFolders (client.onWorkspaceFolders ctx).1)
      (client.onWorkspaceFolders ctx).2 <;>
    simp [ClientHandler, hm, hp, hr, h1, h2, h3, h4, h5, h6, h7, h8, h9, h10,
      ClientInterface.WorkspaceFolders, MethodWindowShowMessage, MethodWindowShowMessageRequest,
    MethodWindowLogMessage, MethodTelemetryEvent, MethodClientRegisterCapability,
    MethodClientUnregisterCapability, MethodTextDocumentPublishDiagnostics,
    MethodWorkspaceApplyEdit, MethodWorkspaceConfiguration, MethodWorkspaceWorkspaceFolders,
    Eff.bind_eq, Eff.pure_eq, Eff.bind, Eff.emit, deref, zapDebug, zapError, ReplyError,
    Conn.Reply, Conn.Cancel, debugLine, errorLog]

/-! ## The properties -/

/-- C2: on an envelope of `workspace/workspaceFolders` whose payload is present, the handler
issues exactly one reply, with nil result and an invalid-parameters error, and invokes no
capability method; when the payload is absent it invokes `WorkspaceFolders` (and replies with
what that returns).  The cancellation identifier is assumed to be none of the ten client
identifiers. -/
theorem ClientHandler_workspaceFolders_payload {D : Decls} (gojay : Unmarshaler D)
    (client : ClientInterface D) (logger : D.Logger) (ctx : D.Ctx) (conn : Conn D)
    (r : Request D) (hc : D.MethodCancelRequest ∉ clientMethods)
    (hm : r.Method = MethodWorkspaceWorkspaceFolders) :
    (r.Params ≠ none →
      ClientHandler gojay client logger ctx conn r =
        ⟨[debugLine logger r,
          .reply ctx r .nil (some (.Errorf .CodeInvalidParams "Expected no params" []))],
          .ok ()⟩ ∧
      (ClientHandler gojay client logger ctx conn r).trace.filter Event.isReply =
        [.reply ctx r .nil (some (.Errorf .CodeInvalidParams "Expected no params" []))] ∧
      (ClientHandler gojay client logger ctx conn r).trace.filter Event.isCapability = []) ∧
    (r.Params = none →
      ClientHandler gojay client logger ctx conn r =
        ⟨[debugLine logger r, .capability (.WorkspaceFolders ctx),
          .reply ctx r (.workspaceFolders (client.onWorkspaceFolders ctx).1)
            (client.onWorkspaceFolders ctx).2] ++
          errorLog logger r.Method (conn.onReply ctx r
            (.workspaceFolders (client.onWorkspaceFolders ctx).1)
            (client.onWorkspaceFolders ctx).2), .ok ()⟩ ∧
      (ClientHandler gojay client logger ctx conn r).trace.filter Event.isCapability =
        [.capability (.WorkspaceFolders ctx)]) := by
  rw [ClientHandler_run_workspaceFolders gojay client logger ctx conn r hc hm]
  constructor
  · intro hp
    cases hq : r.Params with
    | none => exact absurd hq hp
    | some data => simp [Event.isReply, Event.isCapability, debugLine]
  · intro hp
    simp only [hp]
    cases conn.onReply ctx r (.workspaceFolders (client.onWorkspaceFolders ctx).1)
      (client.onWorkspaceFolders ctx).2 <;>
    simp [Event.isCapability, debugLine, errorLog]

/-- C3: when the payload of an envelope of a client method with parameters, or of the
cancellation identifier, fails to decode, the run of the handler is the debug line followed by
one invocation of `ReplyError` with the decoding error, and then ends: no capability method,
no `conn.Cancel`, no reply of the handler itself.  The cancellation identifier is assumed to
be none of the ten client identifiers. -/
theorem ClientHandler_decode_failure {D : Decls} (gojay : Unmarshaler D)
    (client : ClientInterface D) (logger : D.Logger) (ctx : D.Ctx) (conn : Conn D)
    (r : Request D) (err : GoError D) (hc : D.MethodCancelRequest ∉ clientMethods)
    (h : DecodeFailure gojay r err) :
    ClientHandler gojay client logger ctx conn r =
      ⟨[debugLine logger r, .replyError ctx err r logger], .ok ()⟩ ∧
    (ClientHandler gojay client logger ctx conn r).trace.filter Event.isReplyError =
      [.replyError ctx err r logger] ∧
    (ClientHandler gojay client logger ctx conn r).trace.filter Event.isCapability = [] ∧
    (ClientHandler gojay client logger ctx conn r).trace.filter Event.isCancel = [] ∧
    (ClientHandler gojay client logger ctx conn r).trace.filter Event.isReply = [] := by
  have key : ClientHandler gojay client logger ctx conn r =
      ⟨[debugLine logger r, .replyError ctx err r logger], .ok ()⟩ := by
    cases h with
    | cancelRequest data hm hp hd =>
      rw [ClientHandler_run_cancelRequest gojay client logger ctx conn r hm]; simp [hp, hd]
    | registerCapability data hm hp hd =>
      rw [ClientHandler_run_registerCapability gojay client logger ctx conn r hc hm]
      simp [hp, hd]
    | unregisterCapability data hm hp hd =>
      rw [ClientHandler_run_unregisterCapability gojay client logger ctx conn r hc hm]
      simp [hp, hd]
    | telemetryEvent data hm hp hd =>
      have he : gojay.InvalidUnmarshalError = err := by
        simpa [Unmarshaler.Interface] using hd
      rw [ClientHandler_run_telemetryEvent gojay client logger ctx conn r hc hm]
      simp [hp, he]
    | publishDiagnostics data hm hp hd =>
      rw [ClientHandler_run_publishDiagnostics gojay client logger ctx conn r hc hm]
      simp [hp, hd]
    | logMessage data hm hp hd =>
      rw [ClientHandler_run_logMessage gojay client logger ctx conn r hc hm]
      simp [hp, hd]
    | showMessage data hm hp hd =>
      rw [ClientHandler_run_showMessage gojay client logger ctx conn r hc hm]
      simp [hp, hd]
    | showMessageRequest data hm hp hd =>
      rw [ClientHandler_run_showMessageRequest gojay client logger ctx conn r hc hm]
      simp [hp, hd]
    | applyEdit data hm hp hd =>
      rw [ClientHandler_run_applyEdit gojay client logger ctx conn r hc hm]
      simp [hp, hd]
    | configuration data hm hp hd =>
      rw [ClientHandler_run_configuration gojay client logger ctx conn r hc hm]
      simp [hp, hd]
  rw [key]
  simp [Event.isReplyError, Event.isCapability, Event.isCancel, Event.isReply, debugLine]

/-- C4: on a well-formed envelope of one of the four request methods the run of the handler
is: the debug line, one invocation of the matching capability method, one reply carrying the
result and the error which that method returned, and, only when the reply itself fails, a log
line.  So exactly one capability method is invoked and exactly one reply is issued.  The
cancellation identifier is assumed to be none of the ten client identifiers. -/
theorem ClientHandler_request {D : Decls} (gojay : Unmarshaler D)
    (client : ClientInterface D) (logger : D.Logger) (ctx : D.Ctx) (conn : Conn D)
    (r : Request D) (call : ClientCall D) (result : Iface D) (err : Option (GoError D))
    (hc : D.MethodCancelRequest ∉ clientMethods)
    (h : WellFormedRequest gojay client ctx r call result err) :
    ClientHandler gojay client logger ctx conn r =
      ⟨[debugLine logger r, .capability call, .reply ctx r result err] ++
        errorLog logger r.Method (conn.onReply ctx r result err), .ok ()⟩ ∧
    (ClientHandler gojay client logger ctx conn r).trace.filter Event.isCapability =
      [.capability call] ∧
    (ClientHandler gojay client logger ctx conn r).trace.filter Event.isReply =
      [.reply ctx r result err] := by
  have key : ClientHandler gojay client logger ctx conn r =
      ⟨[debugLine logger r, .capability call, .reply ctx r result err] ++
        errorLog logger r.Method (conn.onReply ctx r result err), .ok ()⟩ := by
    cases h with
    | showMessageRequest data params hm hp hd =>
      rw [ClientHandler_run_showMessageRequest gojay client logger ctx conn r hc hm]
      simp [hp, hd]
    | applyEdit data params hm hp hd =>
      rw [ClientHandler_run_applyEdit gojay client logger ctx conn r hc hm]
      simp [hp, hd]
    | configuration data params hm hp hd =>
      rw [ClientHandler_run_configuration gojay client logger ctx conn r hc hm]
      simp [hp, hd]
    | workspaceFolders hm hp =>
      rw [ClientHandler_run_workspaceFolders gojay client logger ctx conn r hc hm]
      simp [hp]
  rw [key]
  cases conn.onReply ctx r result err <;>
  simp [Event.isCapability, Event.isReply, debugLine, errorLog]

/-- The five notification methods other than `telemetry/event`: on a well-formed envelope the
run of the handler is: the debug line, one invocation of the matching capability method, and,
only when that method returns an error, a log line.  So exactly one capability method is
invoked and nothing goes to the channel, whatever the method returns.  The cancellation
identifier is assumed to be none of the ten client identifiers. -/
theorem ClientHandler_notification {D : Decls} (gojay : Unmarshaler D)
    (client : ClientInterface D) (logger : D.Logger) (ctx : D.Ctx) (conn : Conn D)
    (r : Request D) (call : ClientCall D) (ret : Option (GoError D))
    (hc : D.MethodCancelRequest ∉ clientMethods)
    (h : WellFormedNotification gojay client ctx r call ret) :
    ClientHandler gojay client logger ctx conn r =
      ⟨[debugLine logger r, .capability call] ++ errorLog logger r.Method ret, .ok ()⟩ ∧
    (ClientHandler gojay client logger ctx conn r).trace.filter Event.isCapability =
      [.capability call] ∧
    (ClientHandler gojay client logger ctx conn r).trace.filter Event.onChannel = [] := by
  have key : ClientHandler gojay client logger ctx conn r =
      ⟨[debugLine logger r, .capability call] ++ errorLog logger r.Method ret, .ok ()⟩ := by
    cases h with
    | registerCapability data params hm hp hd =>
      rw [ClientHandler_run_registerCapability gojay client logger ctx conn r hc hm]
      simp [hp, hd]
    | unregisterCapability data params hm hp hd =>
      rw [ClientHandler_run_unregisterCapability gojay client logger ctx conn r hc hm]
      simp [hp, hd]
    | publishDiagnostics data params hm hp hd =>
      rw [ClientHandler_run_publishDiagnostics gojay client logger ctx conn r hc hm]
      simp [hp, hd]
    | logMessage data params hm hp hd =>
      rw [ClientHandler_run_logMessage gojay client logger ctx conn r hc hm]
      simp [hp, hd]
    | showMessage data params hm hp hd =>
      rw [ClientHandler_run_showMessage gojay client logger ctx conn r hc hm]
      simp [hp, hd]
  rw [key]
  cases ret <;> simp [Event.isCapability, Event.onChannel, debugLine, errorLog]

/-- C6: on an envelope with the cancellation identifier whose payload decodes to parameters
with correlation identifier `params.ID`, the run of the handler is the debug line followed by
one `conn.Cancel(params.ID)`: one cancel, of exactly that identifier, no capability method, no
reply. -/
theorem ClientHandler_cancel {D : Decls} (gojay : Unmarshaler D)
    (client : ClientInterface D) (logger : D.Logger) (ctx : D.Ctx) (conn : Conn D)
    (r : Request D) (data : RawMessage) (params : CancelParams D.ID)
    (hm : r.Method = D.MethodCancelRequest) (hp : r.Params = some data)
    (hd : gojay.CancelParams data = .ok params) :
    ClientHandler gojay client logger ctx conn r =
      ⟨[debugLine logger r, .cancel params.ID], .ok ()⟩ ∧
    (ClientHandler gojay client logger ctx conn r).trace.filter Event.isCancel =
      [.cancel params.ID] ∧
    (ClientHandler gojay client logger ctx conn r).trace.filter Event.isCapability = [] ∧
    (ClientHandler gojay client logger ctx conn r).trace.filter Event.isReply = [] ∧
    (ClientHandler gojay client logger ctx conn r).trace.filter Event.isReplyError = [] := by
  rw [ClientHandler_run_cancelRequest gojay client logger ctx conn r hm]
  simp [hp, hd, Event.isCancel, Event.isCapability, Event.isReply, Event.isReplyError,
    debugLine]

/-- C1: the handler at the request `unknownRequest` and at the notification
`unknownNotification`, both of the unknown method `foo/bar`: the request gets no reply, the
notification gets the method-not-found reply. -/
theorem ClientHandler_unknown_method_replies :
    ClientHandler gojay0 client0 (5 : Nat) (1 : Nat) conn0 unknownRequest =
      ⟨[.logDebug (5 : Nat) "ClientHandler" "r.Method" "foo/bar"], .ok ()⟩ ∧
    (ClientHandler gojay0 client0 (5 : Nat) (1 : Nat) conn0 unknownRequest).trace.filter
      Event.isReply = [] ∧
    unknownNotification.IsNotify = true ∧
    (ClientHandler gojay0 client0 (5 : Nat) (1 : Nat) conn0 unknownNotification).trace.filter
      Event.isReply =
      [.reply (1 : Nat) unknownNotification .nil
        (some (.Errorf .CodeMethodNotFound "method %q not found" ["foo/bar"]))] :=
  ⟨rfl, rfl, rfl, rfl⟩

/-- What the handler does on an envelope of a method with parameters, or of the cancellation
identifier, whose payload is absent: the dereference of the nil payload pointer panics. -/
theorem ClientHandler_absent_payload {D : Decls} (gojay : Unmarshaler D)
    (client : ClientInterface D) (logger : D.Logger) (ctx : D.Ctx) (conn : Conn D)
    (r : Request D) (hc : D.MethodCancelRequest ∉ clientMethods)
    (hm : r.Method = D.MethodCancelRequest ∨ r.Method ∈ methodsWithParams)
    (hp : r.Params = none) :
    ClientHandler gojay client logger ctx conn r =
      ⟨[debugLine logger r], .error .nilDereference⟩ := by
  rcases hm with hm | hm
  · rw [ClientHandler_run_cancelRequest gojay client logger ctx conn r hm]; simp [hp]
  · simp only [methodsWithParams, List.mem_cons, List.mem_singleton, List.not_mem_nil,
      or_false] at hm
    rcases hm with hm | hm | hm | hm | hm | hm | hm | hm | hm
    · rw [ClientHandler_run_registerCapability gojay client logger ctx conn r hc hm]
      simp [hp]
    · rw [ClientHandler_run_unregisterCapability gojay client logger ctx conn r hc hm]
      simp [hp]
    · rw [ClientHandler_run_telemetryEvent gojay client logger ctx conn r hc hm]
      simp [hp]
    · rw [ClientHandler_run_publishDiagnostics gojay client logger ctx conn r hc hm]
      simp [hp]
    · rw [ClientHandler_run_logMessage gojay client logger ctx conn r hc hm]
      simp [hp]
    · rw [ClientHandler_run_showMessage gojay client logger ctx conn r hc hm]
      simp [hp]
    · rw [ClientHandler_run_showMessageRequest gojay client logger ctx conn r hc hm]
      simp [hp]
    · rw [ClientHandler_run_applyEdit gojay client logger ctx conn r hc hm]
      simp [hp]
    · rw [ClientHandler_run_configuration gojay client logger ctx conn r hc hm]
      simp [hp]

/-- C9: the handler at `logMessageNoParams`, a `window/logMessage` envelope without payload:
after the debug line the run ends in a nil-pointer panic, and `ReplyError` is not invoked. -/
theorem ClientHandler_absent_payload_panics :
    ClientHandler gojay0 client0 (5 : Nat) (1 : Nat) conn0 logMessageNoParams =
      ⟨[.logDebug (5 : Nat) "ClientHandler" "r.Method" "window/logMessage"],
        .error .nilDereference⟩ :=
  rfl

/-- C7: each outbound method of `Client` is one channel operation, under the literal
identifier of its operation, and returns the error of the channel unchanged: `Notify` for the
six notifications, `Call` for the four requests, `WorkspaceFolders` passing nil params. -/
theorem Client_outbound {D : Decls} (c : Client D) (ctx : D.Ctx) :
    (∀ params, c.LogMessage ctx params =
      ⟨[.notify ctx "window/logMessage" (.logMessageParams params)],
        .ok (c.Conn.onNotify ctx "window/logMessage" (.logMessageParams params))⟩) ∧
    (∀ params, c.PublishDiagnostics ctx params =
      ⟨[.notify ctx "textDocument/publishDiagnostics" (.publishDiagnosticsParams params)],
        .ok (c.Conn.onNotify ctx "textDocument/publishDiagnostics"
          (.publishDiagnosticsParams params))⟩) ∧
    (∀ params, c.ShowMessage ctx params =
      ⟨[.notify ctx "window/showMessage" (.showMessageParams params)],
        .ok (c.Conn.onNotify ctx "window/showMessage" (.showMessageParams params))⟩) ∧
    (∀ params, c.Telemetry ctx params =
      ⟨[.notify ctx "telemetry/event" params],
        .ok (c.Conn.onNotify ctx "telemetry/event" params)⟩) ∧
    (∀ params, c.RegisterCapability ctx params =
      ⟨[.notify ctx "client/registerCapability" (.registrationParams params)],
        .ok (c.Conn.onNotify ctx "client/registerCapability" (.registrationParams params))⟩) ∧
    (∀ params, c.UnregisterCapability ctx params =
      ⟨[.notify ctx "client/unregisterCapability" (.unregistrationParams params)],
        .ok (c.Conn.onNotify ctx "client/unregisterCapability"
          (.unregistrationParams params))⟩) ∧
    (∀ params, c.ShowMessageRequest ctx params =
      ⟨[.call ctx "window/showMessageRequest" (.showMessageRequestParams params)],
        .ok (some ((c.Conn.onCall .messageActionItem ctx "window/showMessageRequest"
            (.showMessageRequestParams params)).written.getD D.zeroMessageActionItem),
          (c.Conn.onCall .messageActionItem ctx "window/showMessageRequest"
            (.showMessageRequestParams params)).err)⟩) ∧
    (∀ params, c.WorkspaceApplyEdit ctx params =
      ⟨[.call ctx "workspace/applyEdit" (.applyWorkspaceEditParams params)],
        .ok ((c.Conn.onCall .bool ctx "workspace/applyEdit"
            (.applyWorkspaceEditParams params)).written.getD false,
          (c.Conn.onCall .bool ctx "workspace/applyEdit"
            (.applyWorkspaceEditParams params)).err)⟩) ∧
    (∀ params, c.WorkspaceConfiguration ctx params =
      ⟨[.call ctx "workspace/configuration" (.configurationParams params)],
        .ok ((c.Conn.onCall .anySlice ctx "workspace/configuration"
            (.configurationParams params)).written.getD none,
          (c.Conn.onCall .anySlice ctx "workspace/configuration"
            (.configurationParams params)).err)⟩) ∧
    c.WorkspaceFolders ctx =
      ⟨[.call ctx "workspace/workspaceFolders" .nil],
        .ok ((c.Conn.onCall .workspaceFolders ctx
            "workspace/workspaceFolders" .nil).written.getD none,
          (c.Conn.onCall .workspaceFolders ctx
            "workspace/workspaceFolders" .nil).err)⟩ :=
  ⟨fun _ => rfl, fun _ => rfl, fun _ => rfl, fun _ => rfl, fun _ => rfl, fun _ => rfl,
    fun _ => rfl, fun _ => rfl, fun _ => rfl, rfl⟩

/-- C10, amended: `Client.ShowMessageRequest` returns a non-nil result pointer for every
outcome of the channel call; when the call wrote nothing into the result slot, whether it
failed or succeeded, the pointer is to the zero-valued `MessageActionItem`, and when the call
wrote an item, the pointer is to that item, also when the call failed.  The result of
`Client.WorkspaceFolders` is the nil slice when the call wrote nothing. -/
theorem Client_ShowMessageRequest_result {D : Decls} (c : Client D) (ctx : D.Ctx)
    (params : Option D.ShowMessageRequestParams) :
    (∃ item err, (c.ShowMessageRequest ctx params).out = .ok (some item, err)) ∧
    ((c.Conn.onCall .messageActionItem ctx MethodWindowShowMessageRequest
        (.showMessageRequestParams params)).written = none →
      (c.ShowMessageRequest ctx params).out =
        .ok (some D.zeroMessageActionItem,
          (c.Conn.onCall .messageActionItem ctx MethodWindowShowMessageRequest
            (.showMessageRequestParams params)).err)) ∧
    (∀ item : D.MessageActionItem,
      (c.Conn.onCall .messageActionItem ctx MethodWindowShowMessageRequest
        (.showMessageRequestParams params)).written = some item →
      (c.ShowMessageRequest ctx params).out =
        .ok (some item,
          (c.Conn.onCall .messageActionItem ctx MethodWindowShowMessageRequest
            (.showMessageRequestParams params)).err)) ∧
    ((c.Conn.onCall .workspaceFolders ctx MethodWorkspaceWorkspaceFolders .nil).written = none →
      (c.WorkspaceFolders ctx).out =
        .ok (none, (c.Conn.onCall .workspaceFolders ctx
          MethodWorkspaceWorkspaceFolders .nil).err)) := by
  refine ⟨⟨_, _, rfl⟩, ?_, ?_, ?_⟩
  · intro h
    show Except.ok (some (Option.getD _ _), _) = _
    rw [h]
    rfl
  · intro item h
    show Except.ok (some (Option.getD _ _), _) = _
    rw [h]
    rfl
  · intro h
    show Except.ok (Option.getD _ _, _) = _
    rw [h]
    rfl

/-- C10, as stated, fails: over the channel `conn1`, whose call fails with error 9 after it
has written the item 7 into the result slot, `Client.ShowMessageRequest` returns the error
together with a pointer to the item 7, which is not the zero value 0. -/
theorem Client_ShowMessageRequest_failed_call_not_zero :
    (conn1.onCall .messageActionItem (1 : Nat) MethodWindowShowMessageRequest
        (.showMessageRequestParams (some (1 : Nat)))).err = some (.other (9 : Nat)) ∧
    (c1.ShowMessageRequest (1 : Nat) (some (1 : Nat))).out =
      .ok (some (7 : Nat), some (.other (9 : Nat))) ∧
    (c1.ShowMessageRequest (1 : Nat) (some (1 : Nat))).out ≠
      .ok (some D0.zeroMessageActionItem, some (.other (9 : Nat))) := by
  refine ⟨rfl, rfl, ?_⟩
  intro h
  have h7 : (c1.ShowMessageRequest (1 : Nat) (some (1 : Nat))).out =
      .ok (some (7 : Nat), some (.other (9 : Nat))) := rfl
  rw [h7] at h
  injection h with h
  injection h with h _
  injection h with h
  exact absurd h (by decide)

/-- C5: the handler at `telemetryNotification`, a `telemetry/event` envelope with the payload
`{}`: the decoder rejects the `*interface{}` target, the run is the debug line followed by
`ReplyError`, and `Telemetry` is not invoked. -/
theorem ClientHandler_telemetry_not_invoked :
    ClientHandler gojay0 client0 (5 : Nat) (1 : Nat) conn0 telemetryNotification =
      ⟨[.logDebug (5 : Nat) "ClientHandler" "r.Method" "telemetry/event",
        .replyError (1 : Nat) (.other (2 : Nat)) telemetryNotification (5 : Nat)], .ok ()⟩ ∧
    (ClientHandler gojay0 client0 (5 : Nat) (1 : Nat) conn0 telemetryNotification).trace.filter
      Event.isCapability = [] :=
  ⟨rfl, rfl⟩

/-- No envelope of `telemetry/event` makes the handler invoke a capability method, whatever
the payload, the decoder of the other types, the implementation and the channel. -/
theorem ClientHandler_telemetry_no_capability {D : Decls} (gojay : Unmarshaler D)
    (client : ClientInterface D) (logger : D.Logger) (ctx : D.Ctx) (conn : Conn D)
    (r : Request D) (hc : D.MethodCancelRequest ∉ clientMethods)
    (hm : r.Method = MethodTelemetryEvent) :
    (ClientHandler gojay client logger ctx conn r).trace.filter Event.isCapability = [] := by
  rw [ClientHandler_run_telemetryEvent gojay client logger ctx conn r hc hm]
  cases r.Params <;> simp [Event.isCapability, debugLine]

/-! ## Context values -/

theorem contextOf_append {C : Type} (steps : List (CtxStep C)) (s : CtxStep C) :
    contextOf (steps ++ [s]) = CtxStep.apply (contextOf steps) s := by
  simp [contextOf, List.foldl_append]

theorem lastStored_append {C : Type} (steps : List (CtxStep C)) (s : CtxStep C) :
    lastStored (steps ++ [s]) =
      match s.stored with
      | some logger => some logger
      | none => lastStored steps := by
  simp only [lastStored, List.reverse_append, List.reverse_cons, List.reverse_nil,
    List.nil_append, List.singleton_append, List.findSome?_cons]
  cases s.stored <;> rfl

/-- A step other than `WithLogger` leaves the answer of `LoggerFromContext` unchanged, a
`WithLogger` step sets it. -/
theorem LoggerFromContext_apply {C : Type} (ctx : Context C) (s : CtxStep C) :
    LoggerFromContext (CtxStep.apply ctx s) =
      match s.stored with
      | some logger => logger
      | none => LoggerFromContext ctx := by
  cases s <;> simp [CtxStep.apply, CtxStep.stored, LoggerFromContext, WithLogger, WithClient,
    Context.Value]

/-- C8: `LoggerFromContext` is total; on the context made by any sequence of steps it returns
the logger most recently stored by `WithLogger`, and when no step stored a logger it returns a
non-nil logger over a text handler that writes to `io.Discard`.  In particular it returns
`logger` right after `WithLogger(ctx, logger)`, for every context. -/
theorem LoggerFromContext_lastStored {C : Type} (steps : List (CtxStep C)) :
    LoggerFromContext (contextOf steps) =
      (lastStored steps).getD
        (some (SlogLogger.New (SlogHandler.NewTextHandler Writer.Discard none))) ∧
    (lastStored steps = none →
      LoggerFromContext (contextOf steps) =
        some (SlogLogger.New (SlogHandler.NewTextHandler Writer.Discard none))) ∧
    (∀ (ctx : Context C) (logger : Option SlogLogger),
      LoggerFromContext (WithLogger ctx logger) = logger) := by
  have key : LoggerFromContext (contextOf steps) =
      (lastStored steps).getD
        (some (SlogLogger.New (SlogHandler.NewTextHandler Writer.Discard none))) := by
    induction steps using List.reverseRecOn with
    | nil => rfl
    | append_singleton steps s ih =>
      rw [contextOf_append, lastStored_append, LoggerFromContext_apply, ih]
      cases s.stored <;> rfl
  refine ⟨key, ?_, ?_⟩
  · intro h
    rw [key, h]
    rfl
  · intro ctx logger
    simp [LoggerFromContext, WithLogger, Context.Value]

/-! ## Instances of the properties at concrete inputs -/

/-- Witness for C2: the request `foldersRequestWithPayload` gets the one invalid-parameters
reply and no capability method is invoked. -/
theorem ClientHandler_workspaceFolders_payload_witness :
    D0.MethodCancelRequest ∉ clientMethods ∧
    foldersRequestWithPayload.Method = MethodWorkspaceWorkspaceFolders ∧
    foldersRequestWithPayload.Params ≠ none ∧
    (ClientHandler gojay0 client0 (5 : Nat) (1 : Nat) conn0
        foldersRequestWithPayload).trace.filter Event.isReply =
      [.reply (1 : Nat) foldersRequestWithPayload .nil
        (some (.Errorf .CodeInvalidParams "Expected no params" []))] ∧
    (ClientHandler gojay0 client0 (5 : Nat) (1 : Nat) conn0
        foldersRequestWithPayload).trace.filter Event.isCapability = [] :=
  ⟨by decide, rfl, by decide,
    ((ClientHandler_workspaceFolders_payload gojay0 client0 (5 : Nat) (1 : Nat) conn0
      foldersRequestWithPayload (by decide) rfl).1 (by decide)).2⟩

/-- Witness for C3: the payload of `logMessageMalformed` fails to decode and the run is the
debug line followed by one `ReplyError`. -/
theorem ClientHandler_decode_failure_witness :
    D0.MethodCancelRequest ∉ clientMethods ∧
    DecodeFailure gojay0 logMessageMalformed (.other (1 : Nat)) ∧
    ClientHandler gojay0 client0 (5 : Nat) (1 : Nat) conn0 logMessageMalformed =
      ⟨[debugLine (5 : Nat) logMessageMalformed,
        .replyError (1 : Nat) (.other (1 : Nat)) logMessageMalformed (5 : Nat)], .ok ()⟩ :=
  ⟨by decide, .logMessage [] rfl rfl rfl,
    (ClientHandler_decode_failure gojay0 client0 (5 : Nat) (1 : Nat) conn0
      logMessageMalformed (.other (1 : Nat)) (by decide) (.logMessage [] rfl rfl rfl)).1⟩

/-- Witness for C4: on `applyEditRequest` the handler invokes `WorkspaceApplyEdit` once and
replies once with its result. -/
theorem ClientHandler_request_witness :
    D0.MethodCancelRequest ∉ clientMethods ∧
    WellFormedRequest gojay0 client0 (1 : Nat) applyEditRequest
      (.WorkspaceApplyEdit (1 : Nat) (some (2 : Nat))) (.bool true) none ∧
    (ClientHandler gojay0 client0 (5 : Nat) (1 : Nat) conn0 applyEditRequest).trace.filter
      Event.isCapability = [.capability (.WorkspaceApplyEdit (1 : Nat) (some (2 : Nat)))] ∧
    (ClientHandler gojay0 client0 (5 : Nat) (1 : Nat) conn0 applyEditRequest).trace.filter
      Event.isReply = [.reply (1 : Nat) applyEditRequest (.bool true) none] :=
  ⟨by decide, @WellFormedRequest.applyEdit D0 gojay0 client0 (1 : Nat) applyEditRequest [123, 125]
      (2 : Nat) rfl rfl rfl,
    (ClientHandler_request gojay0 client0 (5 : Nat) (1 : Nat) conn0 applyEditRequest
      (.WorkspaceApplyEdit (1 : Nat) (some (2 : Nat))) (.bool true) none (by decide)
      (@WellFormedRequest.applyEdit D0 gojay0 client0 (1 : Nat) applyEditRequest [123, 125]
      (2 : Nat) rfl rfl rfl)).2⟩

/-- An instance at `logMessageNotification`, with an implementation that fails: the error is
logged and nothing goes to the channel. -/
theorem ClientHandler_notification_witness :
    D0.MethodCancelRequest ∉ clientMethods ∧
    WellFormedNotification gojay0 client0 (0 : Nat) logMessageNotification
      (.LogMessage (0 : Nat) (some (2 : Nat))) (some (.other (7 : Nat))) ∧
    ClientHandler gojay0 client0 (5 : Nat) (0 : Nat) conn0 logMessageNotification =
      ⟨[debugLine (5 : Nat) logMessageNotification,
        .capability (.LogMessage (0 : Nat) (some (2 : Nat))),
        .logError (5 : Nat) "window/logMessage" (.other (7 : Nat))], .ok ()⟩ ∧
    (ClientHandler gojay0 client0 (5 : Nat) (0 : Nat) conn0 logMessageNotification).trace.filter
      Event.onChannel = [] :=
  ⟨by decide, @WellFormedNotification.logMessage D0 gojay0 client0 (0 : Nat) logMessageNotification
      [123, 125] (2 : Nat) rfl rfl rfl,
    (ClientHandler_notification gojay0 client0 (5 : Nat) (0 : Nat) conn0
      logMessageNotification (.LogMessage (0 : Nat) (some (2 : Nat))) (some (.other (7 : Nat)))
      (by decide) (@WellFormedNotification.logMessage D0 gojay0 client0 (0 : Nat) logMessageNotification
      [123, 125] (2 : Nat) rfl rfl rfl)).1,
    (ClientHandler_notification gojay0 client0 (5 : Nat) (0 : Nat) conn0
      logMessageNotification (.LogMessage (0 : Nat) (some (2 : Nat))) (some (.other (7 : Nat)))
      (by decide) (@WellFormedNotification.logMessage D0 gojay0 client0 (0 : Nat) logMessageNotification
      [123, 125] (2 : Nat) rfl rfl rfl)).2.2⟩

/-- Witness for C6: on `cancelNotification` the handler cancels the identifier 2. -/
theorem ClientHandler_cancel_witness :
    cancelNotification.Method = D0.MethodCancelRequest ∧
    cancelNotification.Params = some [123, 125] ∧
    gojay0.CancelParams [123, 125] = .ok ⟨(2 : Nat)⟩ ∧
    ClientHandler gojay0 client0 (5 : Nat) (1 : Nat) conn0 cancelNotification =
      ⟨[debugLine (5 : Nat) cancelNotification, .cancel (2 : Nat)], .ok ()⟩ :=
  ⟨rfl, rfl, rfl,
    (ClientHandler_cancel gojay0 client0 (5 : Nat) (1 : Nat) conn0 cancelNotification
      [123, 125] ⟨(2 : Nat)⟩ rfl rfl rfl).1⟩

/-- Witness for C10: over the channel `conn0`, whose call at context 2 fails and writes
nothing, `ShowMessageRequest` returns a pointer to the zero value and `WorkspaceFolders` the
nil slice; over `conn1`, whose call fails after writing the item 7, a pointer to 7. -/
theorem Client_ShowMessageRequest_result_witness :
    (conn0.onCall .messageActionItem (2 : Nat) MethodWindowShowMessageRequest
      (.showMessageRequestParams (some (1 : Nat)))).written = none ∧
    (c0.ShowMessageRequest (2 : Nat) (some (1 : Nat))).out =
      .ok (some (0 : Nat), some (.other (9 : Nat))) ∧
    (c0.WorkspaceFolders (2 : Nat)).out = .ok (none, some (.other (9 : Nat))) ∧
    (c1.ShowMessageRequest (2 : Nat) (some (1 : Nat))).out =
      .ok (some (7 : Nat), some (.other (9 : Nat))) :=
  ⟨rfl,
    (Client_ShowMessageRequest_result c0 (2 : Nat) (some (1 : Nat))).2.1 rfl,
    (Client_ShowMessageRequest_result c0 (2 : Nat) (some (1 : Nat))).2.2.2 rfl,
    (Client_ShowMessageRequest_result c1 (2 : Nat) (some (1 : Nat))).2.2.1 (7 : Nat) rfl⟩

/-- Witness for C8: without a `WithLogger` step the discarding logger is returned, and after
three `WithLogger` steps the logger of the last one. -/
theorem LoggerFromContext_lastStored_witness :
    lastStored ([.withForeign 1 (.foreign 8), .withClient 4] : List (CtxStep Nat)) = none ∧
    LoggerFromContext
        (contextOf ([.withForeign 1 (.foreign 8), .withClient 4] : List (CtxStep Nat))) =
      some (SlogLogger.New (SlogHandler.NewTextHandler Writer.Discard none)) ∧
    LoggerFromContext (contextOf ([.withLogger (some (.New (.other 3))), .withLogger none,
        .withLogger (some (.New (.other 5))), .withClient 4] : List (CtxStep Nat))) =
      some (.New (.other 5)) :=
  ⟨rfl,
    (LoggerFromContext_lastStored
      ([.withForeign 1 (.foreign 8), .withClient 4] : List (CtxStep Nat))).2.1 rfl,
    (LoggerFromContext_lastStored ([.withLogger (some (.New (.other 3))), .withLogger none,
        .withLogger (some (.New (.other 5))), .withClient 4] : List (CtxStep Nat))).1⟩

end Protocol
